import Mathlib

/-
Verification of the forecast engine (backend/app/engine/forecast.py) and the
decision-risk rule engine (backend/app/engine/decision_risk_engine.py).

Modelling conventions:
* Python floats are modelled as rationals (ℚ); `datetime` values are modelled
  as a rational number of days since an arbitrary epoch, so `timedelta`
  arithmetic is exact and `timedelta.days` is `Int.floor`.
* `datetime.now()` (forecast.py line 445) is modelled as an explicit `now`
  parameter of the engine.
* Python dict keys that may be absent are `Option` fields; Python truthiness
  of a string is `s ≠ ""`, of a float is `x ≠ 0`, of `None` is false.
* The unbounded recursion of `_delay_for_work_item` is modelled with an
  explicit fuel parameter: `none` means the recursion did not finish within
  the given budget (for a cyclic graph it never does, for any budget).
* Exceptions (`ValueError` for a missing milestone, `ZeroDivisionError` in the
  capacity perturbation) are modelled with `Except FErr`.
* Human-readable strings (contribution causes, the explanation text) are
  modelled by inductive data carrying exactly the values interpolated into the
  corresponding f-strings, so equality of the data matches equality of the
  rendered strings.
-/

namespace ForecastEngine

abbrev Days := ℚ

/-- Cause of a contribution: one constructor per distinct f-string in the
source, carrying the interpolated values. -/
inductive Cause where
  | scenarioScopeTag (isAdd : Bool) (absDelta : Days)
  | scenarioCapacityReductionTag (multiplier : Days)
  | scenarioDelayTag (name : String) (delay : Days)
  | dependencyTag (name : String) (remaining : Option Days)
      (externalTeam : Bool) (blocked : Bool)
  | materialisedRiskTag (title : String)
  | openRiskTag (title : String) (probability : Days)
  | mitigatingRiskTag (title : String)
  | scenarioScopeIncreaseTag (delta : Days)
  | scenarioScopeReductionTag (delta : Days)
  | recentScopeChangeTag (reason : String)
  | uncertaintyBufferTag
  | scenarioCapacityChangeTag (multiplier : Days)
deriving DecidableEq

/-- Contribution dataclass: (cause, days). -/
structure Contribution where
  cause : Cause
  days : Days
deriving DecidableEq

/-- ContributionTracker is an append-only list of contributions. -/
abbrev Tracker := List Contribution

/-- ContributionTracker.add: appends only when abs(days) >= 0.1. -/
def trackerAdd (tr : Tracker) (cause : Cause) (days : Days) : Tracker :=
  if |days| ≥ 1 / 10 then tr ++ [⟨cause, days⟩] else tr

/-- Python round(x, 1): round to one decimal, ties to even (model of the
float rounding on exact rationals). -/
def pyRound1 (x : Days) : Days :=
  let y := 10 * x
  let f : ℤ := ⌊y⌋
  let r := y - (f : ℚ)
  let n : ℤ :=
    if r < 1 / 2 then f
    else if 1 / 2 < r then f + 1
    else if f % 2 = 0 then f else f + 1
  (n : ℚ) / 10

/-- Stable insertion used by the sort in ContributionTracker.get_sorted:
an element is placed after every already-placed element whose key is not
strictly smaller, matching Python's stable descending sort by abs(days). -/
def insertContrib (c : Contribution) : List Contribution → List Contribution
  | [] => [c]
  | d :: ds => if |c.days| > |d.days| then c :: d :: ds else d :: insertContrib c ds

/-- ContributionTracker.get_sorted: sort by abs(days) descending (stable),
then round each entry's days to one decimal. -/
def trackerGetSorted (tr : Tracker) : List Contribution :=
  (tr.foldl (fun acc c => insertContrib c acc) []).map
    (fun c => { c with days := pyRound1 c.days })

/-- ScenarioType enum. -/
inductive ScenarioType where
  | dependencyDelay
  | scopeChange
  | capacityChange
deriving DecidableEq

/-- Scenario params dict: only the keys the engine reads. -/
structure ScenarioParams where
  workItemId : Option String
  delayDays : Option Days
  effortDeltaDays : Option Days
  capacityMultiplier : Option Days
deriving DecidableEq

/-- Scenario dataclass. -/
structure ScenarioSpec where
  stype : ScenarioType
  params : ScenarioParams
deriving DecidableEq

/-- HypotheticalMitigation dataclass. -/
structure HypotheticalMitigation where
  riskId : String
  expectedImpactReductionDays : Option Days
deriving DecidableEq

/-- ExternalTeamHistory dataclass. -/
structure ExternalTeamHistory where
  avgSlipDays : Days
  slipProbability : Days
  reliabilityScore : Days
deriving DecidableEq

/-- ForecastOptions dataclass. -/
structure ForecastOptions where
  scen : Option ScenarioSpec
  hypotheticalMitigation : Option HypotheticalMitigation
  externalTeamHistory : Option (List (String × ExternalTeamHistory))
deriving DecidableEq

/-- Milestone dict: the fields the engine reads. -/
structure Milestone where
  id : String
  name : Option String
  targetDate : Days
deriving DecidableEq

/-- Work item dict: the fields the engine reads. -/
structure WorkItem where
  id : String
  title : Option String
  status : Option String
  milestoneId : Option String
  estimatedDays : Option Days
  completionPercentage : Option Days
  remainingDays : Option Days
  externalTeamId : Option String
  expectedCompletionDate : Option Days
  confidenceLevel : Option Days
  startDate : Option Days
  dependencies : List String
deriving DecidableEq

/-- Dependency dict: from_id, to_id and the advanced properties. -/
structure DepEdge where
  fromId : Option String
  toId : Option String
  criticality : Option String
  slackDays : Option Days
  probabilityDelay : Option Days
deriving DecidableEq

/-- Risk impact dict: the three day keys the engine probes. -/
structure Impact where
  impactDays : Option Days
  delayDays : Option Days
  scheduleDelayDays : Option Days
deriving DecidableEq

/-- The hypothetical_mitigation sub-dict of a risk. -/
structure HypoMitEntry where
  impactReductionDays : Option Days
deriving DecidableEq

/-- Risk dict: the fields the engine reads. -/
structure Risk where
  id : String
  title : Option String
  status : Option String
  probability : Option Days
  impact : Option Impact
  milestoneId : Option String
  affectedItems : List String
  hypotheticalMitigation : Option HypoMitEntry
deriving DecidableEq

/-- Decision dict: the fields _calculate_scope_change_delays reads. -/
structure Decision where
  decisionType : Option String
  status : Option String
  effortDeltaDays : Option Days
  reason : Option String
deriving DecidableEq

/-- The caller-supplied state snapshot.  The three scenario_* entries model
the optional top-level dict keys that the perturbation layer writes; `none`
means the key is absent from the dict. -/
structure PyState where
  milestones : List Milestone
  workItems : List WorkItem
  dependencies : List DepEdge
  risks : List Risk
  decisions : List Decision
  scenarioDelays : Option (List (String × Days))
  scenarioScopeChanges : Option (List (String × Days))
  scenarioCapacityChanges : Option (List (String × Days))
deriving DecidableEq

/-- Errors the forecast may raise.  `fuelOut` marks a computation that did
not finish within the recursion budget (the source has no cycle check, so a
cyclic graph exhausts any budget). -/
inductive FErr where
  | notFound (milestoneId : String)
  | zeroDiv
  | fuelOut
deriving DecidableEq

/-- _get_milestone: first milestone whose id matches. -/
def getMilestone (milestoneId : String) (st : PyState) : Option Milestone :=
  st.milestones.find? (fun m => decide (m.id = milestoneId))

/-- _get_work_items_for_milestone. -/
def getWorkItemsForMilestone (milestoneId : String) (st : PyState) : List WorkItem :=
  st.workItems.filter (fun wi => decide (wi.milestoneId = some milestoneId))

/-- _get_risks_for_milestone: directly associated, or via affected items. -/
def getRisksForMilestone (milestoneId : String) (st : PyState) : List Risk :=
  let workItemIds := (getWorkItemsForMilestone milestoneId st).map (fun wi => wi.id)
  st.risks.filter (fun r =>
    decide (r.milestoneId = some milestoneId) ||
    r.affectedItems.any (fun itemId => workItemIds.contains itemId))

/-- Python dict update semantics on an association list: overwrite in place
if the key exists, otherwise append. -/
def dictInsert (m : List (String × Days)) (k : String) (v : Days) : List (String × Days) :=
  if (m.lookup k).isSome then
    m.map (fun kv => if kv.1 = k then (k, v) else kv)
  else m ++ [(k, v)]

/-- _perturb_dependency_delay.  The result pair is (the modified copy handed
on to the rest of the forecast, the caller's original state as observed after
the call): `dict(state)` is a shallow copy, so when the snapshot already has a
scenario_delays dict the entry is written into that shared dict and the
original is mutated too. -/
def perturbDependencyDelay (st : PyState) (params : ScenarioParams) :
    PyState × PyState :=
  let workItemId := params.workItemId.getD ""
  let delayDays := params.delayDays.getD 0
  if workItemId ≠ "" ∧ delayDays > 0 then
    match st.scenarioDelays with
    | none =>
        ({ st with scenarioDelays := some [(workItemId, delayDays)] }, st)
    | some m =>
        let m1 := dictInsert m workItemId delayDays
        ({ st with scenarioDelays := some m1 },
         { st with scenarioDelays := some m1 })
  else (st, st)

/-- _perturb_scope_change, with the same (copy, original-after-call)
convention; it also records a contribution of abs(effort_delta_days). -/
def perturbScopeChange (st : PyState) (milestoneId : String)
    (params : ScenarioParams) (tr : Tracker) :
    PyState × Tracker × PyState :=
  let delta := params.effortDeltaDays.getD 0
  if delta ≠ 0 then
    let pair :=
      match st.scenarioScopeChanges with
      | none =>
          ({ st with scenarioScopeChanges := some [(milestoneId, delta)] }, st)
      | some m =>
          let m1 := dictInsert m milestoneId delta
          ({ st with scenarioScopeChanges := some m1 },
           { st with scenarioScopeChanges := some m1 })
    let tr1 := trackerAdd tr (Cause.scenarioScopeTag (decide (delta > 0)) |delta|) |delta|
    (pair.1, tr1, pair.2)
  else (st, tr, st)

/-- _perturb_capacity_change.  The multiplier is stored first; for a
multiplier below 1 the extension is computed with `1 / multiplier`, which for
multiplier 0 raises ZeroDivisionError (no clamping anywhere). -/
def perturbCapacityChange (st : PyState) (milestoneId : String)
    (params : ScenarioParams) (tr : Tracker) :
    Except FErr (PyState × Tracker) × PyState :=
  let m := params.capacityMultiplier.getD 1
  if m ≠ 1 then
    let pair :=
      match st.scenarioCapacityChanges with
      | none =>
          ({ st with scenarioCapacityChanges := some [(milestoneId, m)] }, st)
      | some mm =>
          let m1 := dictInsert mm milestoneId m
          ({ st with scenarioCapacityChanges := some m1 },
           { st with scenarioCapacityChanges := some m1 })
    if m < 1 then
      if m = 0 then (Except.error FErr.zeroDiv, pair.2)
      else
        let workItems := getWorkItemsForMilestone milestoneId pair.1
        let totalRemainingDays :=
          (workItems.filter (fun wi => decide (wi.status ≠ some "completed"))).foldl
            (fun acc wi => acc + wi.estimatedDays.getD 0) 0
        let extension := totalRemainingDays * (1 / m - 1)
        (Except.ok
          (pair.1, trackerAdd tr (Cause.scenarioCapacityReductionTag m) extension),
         pair.2)
    else (Except.ok (pair.1, tr), pair.2)
  else (Except.ok (st, tr), st)

/-- _apply_scenario_perturbations, as (result-or-error, original after the
call). -/
def applyScenarioPerturbations (st : PyState) (milestoneId : String)
    (scen : Option ScenarioSpec) (tr : Tracker) :
    Except FErr (PyState × Tracker) × PyState :=
  match scen with
  | none => (Except.ok (st, tr), st)
  | some s =>
    match s.stype with
    | ScenarioType.dependencyDelay =>
        let p := perturbDependencyDelay st s.params
        (Except.ok (p.1, tr), p.2)
    | ScenarioType.scopeChange =>
        let p := perturbScopeChange st milestoneId s.params tr
        (Except.ok (p.1, p.2.1), p.2.2)
    | ScenarioType.capacityChange =>
        perturbCapacityChange st milestoneId s.params tr

/-- _apply_hypothetical_mitigation as (new state, original after the call).
The risks list and each risk dict are shallow-copied, but when a risk already
carries a hypothetical_mitigation dict that inner dict is shared with the
original, so writing impact_reduction_days into it mutates the original. -/
def applyHypotheticalMitigation (st orig : PyState)
    (mit : Option HypotheticalMitigation) : PyState × PyState :=
  match mit with
  | none => (st, orig)
  | some m =>
    let reductionTruthy : Bool :=
      match m.expectedImpactReductionDays with
      | some red => decide (red ≠ 0)
      | none => false
    let newRisks := st.risks.map (fun r =>
      if r.id = m.riskId then
        if reductionTruthy then
          { r with hypotheticalMitigation := some ⟨m.expectedImpactReductionDays⟩ }
        else
          { r with status := some "mitigating" }
      else r)
    let origRisks := orig.risks.map (fun r =>
      if r.id = m.riskId ∧ reductionTruthy = true ∧ r.hypotheticalMitigation.isSome then
        { r with hypotheticalMitigation := some ⟨m.expectedImpactReductionDays⟩ }
      else r)
    ({ st with risks := newRisks }, { orig with risks := origRisks })

/-- Context for the dependency-delay resolution, built once per call of
_calculate_dependency_delays. -/
structure DepCtx where
  milestoneId : String
  allItems : List WorkItem
  deps : List DepEdge
  scenarioDelays : List (String × Days)
  extHistory : List (String × ExternalTeamHistory)
deriving DecidableEq

/-- wi_lookup dict comprehension: on duplicate ids the last one wins. -/
def wiLookup (items : List WorkItem) (i : String) : Option WorkItem :=
  items.reverse.find? (fun w => decide (w.id = i))

/-- incoming_map built from work item dependency lists (empty-string ids are
falsy and skipped); duplicate-id work items contribute in order. -/
def incomingFor (items : List WorkItem) (i : String) : List String :=
  ((items.filter (fun w => decide (w.id = i))).map
    (fun w => w.dependencies.filter (fun d => decide (d ≠ "")))).flatten

/-- dep_props dict keyed by (from_id, to_id): last edge wins. -/
def depPropsFind (deps : List DepEdge) (a b : String) : Option DepEdge :=
  deps.reverse.find? (fun d =>
    match d.fromId, d.toId with
    | some x, some y => decide (x = a) && decide (y = b)
    | _, _ => false)

/-- Criticality multiplier table, default 1.0. -/
def critMultiplier (c : String) : Days :=
  if c = "low" then 1 / 2
  else if c = "medium" then 1
  else if c = "high" then 3 / 2
  else if c = "critical" then 2
  else 1

/-- _calculate_realistic_delay for one dependency edge.  The is_scenario
flag of the source is constantly False (every assignment sets False), so the
guard `delay == 0.0 or not is_scenario` before the status-based block is
always true; the pair mirrors the source's return value. -/
def calculateRealisticDelay (ctx : DepCtx) (now : Days)
    (wi depWi : WorkItem) (props : Option DepEdge) : Days × Bool :=
  if depWi.status = some "completed" then (0, false)
  else
    let delay0 : Days := 0
    let remPositive : Bool :=
      match depWi.remainingDays with
      | some r => decide (r > 0)
      | none => false
    let delay1 :=
      if remPositive then
        let critMult :=
          match props with
          | some p => critMultiplier (p.criticality.getD "medium")
          | none => 1
        let slack :=
          match props with
          | some p => p.slackDays.getD 0
          | none => 0
        let potential := max 0 (depWi.remainingDays.getD 0 * critMult - slack)
        if potential > delay0 then potential else delay0
      else
        match depWi.completionPercentage with
        | some pct =>
          let estimatedDays := depWi.estimatedDays.getD 5
          let potential := estimatedDays * (1 - pct) * (7 / 10)
          if potential > delay0 then potential else delay0
        | none => delay0
    let delay3 :=
      match depWi.expectedCompletionDate with
      | some expected =>
        let neededDate :=
          match wi.startDate with
          | some sd => sd
          | none => now
        let dateBasedDelay : ℤ := ⌊expected - neededDate⌋
        if dateBasedDelay > 0 ∧ (dateBasedDelay : ℚ) > delay1 then (dateBasedDelay : ℚ)
        else delay1
      | none => delay1
    let delay4 :=
      match depWi.externalTeamId with
      | some teamId =>
        if teamId ≠ "" then
          match ctx.extHistory.lookup teamId with
          | some th =>
            let baseEstimate := depWi.estimatedDays.getD 5
            let expectedSlip := baseEstimate * (1 - th.reliabilityScore)
            let probabilisticSlip := expectedSlip * th.slipProbability
            if probabilisticSlip > delay3 then probabilisticSlip else delay3
          | none => delay3
        else delay3
      | none => delay3
    let delay5a :=
      match depWi.milestoneId with
      | some m =>
        if m ≠ "" ∧ m ≠ ctx.milestoneId then
          if depWi.status ≠ some "completed" then
            let conf := depWi.confidenceLevel.getD (7 / 10)
            let baseDelay := depWi.estimatedDays.getD 5 * (1 - conf)
            if baseDelay > delay4 then baseDelay else delay4
          else delay4
        else delay4
      | none => delay4
    let delay5b :=
      if depWi.status = some "blocked" ∧ (5 : Days) > delay5a then (5 : Days) else delay5a
    let delay5c :=
      if depWi.status = some "in_progress" ∧ delay5b = 0 then
        let estimatedDays := depWi.estimatedDays.getD 0
        if estimatedDays > 0 then
          let potential := estimatedDays * (1 / 2)
          if potential > delay5b then potential else delay5b
        else delay5b
      else delay5b
    let delay6 :=
      match props with
      | some p =>
        match p.probabilityDelay with
        | some prob => delay5c * prob
        | none => delay5c
      | none => delay5c
    (delay6, false)

/-- Memo table of _delay_for_work_item (scoped to one call of
_calculate_dependency_delays). -/
abbrev Memo := List (String × Days)

/-- The dependency loop of _delay_for_work_item, parameterised by the
recursive call (`recur`) at one less fuel. -/
def delayLoopAux (ctx : DepCtx) (now : Days)
    (recur : String → Memo → Option (Days × Memo)) (wi : WorkItem) :
    List String → Memo → Days → Option (Days × Memo)
  | [], memo, acc => some (acc, memo)
  | upstreamId :: rest, memo, acc =>
    match wiLookup ctx.allItems upstreamId with
    | none => delayLoopAux ctx now recur wi rest memo acc
    | some upstreamWi =>
      let props := depPropsFind ctx.deps wi.id upstreamId
      let edgeDelay := (calculateRealisticDelay ctx now wi upstreamWi props).1
      match recur upstreamId memo with
      | none => none
      | some (upstreamDelay, memo1) =>
        let totalPathDelay := upstreamDelay + edgeDelay
        delayLoopAux ctx now recur wi rest memo1 (max acc totalPathDelay)

/-- The own-delay block of _delay_for_work_item: scenario override first
(max with 0), then remaining work, completion percentage, blocked and
in-progress heuristics. -/
def ownDelayOf (ctx : DepCtx) (wiId : String) (wi : WorkItem) : Days :=
  let ownScen : Days :=
    match ctx.scenarioDelays.lookup wiId with
    | some d => max 0 d
    | none => 0
  let remPositive : Bool :=
    match wi.remainingDays with
    | some r => decide (r > 0)
    | none => false
  if remPositive then max ownScen (wi.remainingDays.getD 0)
  else
    match wi.completionPercentage with
    | some pct => max ownScen (wi.estimatedDays.getD 0 * (1 - pct))
    | none =>
      if wi.status = some "blocked" then max ownScen 5
      else if wi.status = some "in_progress" then
        let estimatedDays := wi.estimatedDays.getD 0
        if estimatedDays > 0 then max ownScen (estimatedDays * (1 / 2))
        else ownScen
      else ownScen

/-- Body of _delay_for_work_item, parameterised by the recursive call. -/
def delayForWorkItemGo (ctx : DepCtx) (now : Days)
    (recur : String → Memo → Option (Days × Memo))
    (wiId : String) (memo : Memo) : Option (Days × Memo) :=
  match memo.lookup wiId with
  | some v => some (v, memo)
  | none =>
    match wiLookup ctx.allItems wiId with
    | none => some (0, (wiId, 0) :: memo)
    | some wi =>
      if wi.status = some "completed" ∧ (ctx.scenarioDelays.lookup wiId).isNone then
        some (0, (wiId, 0) :: memo)
      else
        let ownDelay := ownDelayOf ctx wiId wi
        match delayLoopAux ctx now recur wi (incomingFor ctx.allItems wiId) memo 0 with
        | none => none
        | some (maxUpstreamDelay, memo1) =>
          let totalDelay := max ownDelay maxUpstreamDelay
          some (totalDelay, (wiId, totalDelay) :: memo1)

/-- _delay_for_work_item with an explicit recursion budget: `none` means the
budget was exhausted (the source would still be recursing). -/
def delayForWorkItem (ctx : DepCtx) (now : Days) :
    Nat → String → Memo → Option (Days × Memo)
  | 0 => fun _ _ => none
  | Nat.succ fuel => delayForWorkItemGo ctx now (delayForWorkItem ctx now fuel)

/-- Inner loop of the final evaluation in _calculate_dependency_delays:
walks one milestone work item's upstream list, resolving each upstream's
delay, recording contributions and counting external dependencies. -/
def topUpstreamLoop (ctx : DepCtx) (now : Days) (fuel : Nat) :
    List String → Memo → Tracker → Days → Nat →
    Option (Days × Nat × Memo × Tracker)
  | [], memo, tr, wiMaxDelay, extCount => some (wiMaxDelay, extCount, memo, tr)
  | upstreamId :: rest, memo, tr, wiMaxDelay, extCount =>
    match wiLookup ctx.allItems upstreamId with
    | none => topUpstreamLoop ctx now fuel rest memo tr wiMaxDelay extCount
    | some upstreamWi =>
      match delayForWorkItem ctx now fuel upstreamId memo with
      | none => none
      | some (upstreamDelay, memo1) =>
        let tr1 :=
          if upstreamDelay > 1 / 2 then
            let upstreamName := upstreamWi.title.getD upstreamId
            match ctx.scenarioDelays.lookup upstreamId with
            | some sd => trackerAdd tr (Cause.scenarioDelayTag upstreamName sd) upstreamDelay
            | none =>
              let remainingShown :=
                match upstreamWi.remainingDays with
                | some r => if r ≠ 0 then some r else none
                | none => none
              let externalShown :=
                match upstreamWi.externalTeamId with
                | some t => decide (t ≠ "")
                | none => false
              let blockedShown := decide (upstreamWi.status = some "blocked")
              trackerAdd tr
                (Cause.dependencyTag upstreamName remainingShown externalShown blockedShown)
                upstreamDelay
          else tr
        let extCount1 :=
          extCount +
            (match upstreamWi.milestoneId with
             | some m => if m ≠ "" ∧ m ≠ ctx.milestoneId then 1 else 0
             | none => 0)
        topUpstreamLoop ctx now fuel rest memo1 tr1 (max wiMaxDelay upstreamDelay) extCount1

/-- Outer loop of _calculate_dependency_delays over the milestone's work
items; completed items are skipped entirely (even when a scenario override
targets them). -/
def topItemsLoop (ctx : DepCtx) (now : Days) (fuel : Nat) :
    List WorkItem → Memo → Tracker → Days → Nat →
    Option (Days × Nat × Memo × Tracker)
  | [], memo, tr, totalDelay, extCount => some (totalDelay, extCount, memo, tr)
  | wi :: rest, memo, tr, totalDelay, extCount =>
    if wi.status = some "completed" then
      topItemsLoop ctx now fuel rest memo tr totalDelay extCount
    else
      match topUpstreamLoop ctx now fuel (incomingFor ctx.allItems wi.id) memo tr 0 extCount with
      | none => none
      | some (wiMaxDelay, extCount1, memo1, tr1) =>
        topItemsLoop ctx now fuel rest memo1 tr1 (max totalDelay wiMaxDelay) extCount1

/-- _calculate_dependency_delays: returns (total delay, external dependency
count, tracker), or `none` when the recursion budget is exhausted. -/
def calculateDependencyDelays (milestone : Milestone) (st : PyState)
    (tr : Tracker) (extHistory : List (String × ExternalTeamHistory))
    (now : Days) (fuel : Nat) : Option (Days × Nat × Tracker) :=
  let ctx : DepCtx :=
    { milestoneId := milestone.id
      allItems := st.workItems
      deps := st.dependencies
      scenarioDelays := st.scenarioDelays.getD []
      extHistory := extHistory }
  let workItems := getWorkItemsForMilestone milestone.id st
  match topItemsLoop ctx now fuel workItems [] tr 0 0 with
  | none => none
  | some (totalDelay, extCount, _, tr1) => some (totalDelay, extCount, tr1)

/-- Python `a or b` on an optional float: falls through on None and on 0. -/
def pyOrQ (a : Option Days) (b : Days) : Days :=
  match a with
  | some x => if x = 0 then b else x
  | none => b

/-- The impact-days base of a risk: the or-chain over the impact dict keys
with final default 3.0, then the hypothetical-mitigation reduction with a
floor at 0 (applied whenever the hypothetical_mitigation key is present). -/
def effectiveImpactDays (r : Risk) : Days :=
  let imp := r.impact.getD ⟨none, none, none⟩
  let base := pyOrQ imp.impactDays (pyOrQ imp.delayDays (pyOrQ imp.scheduleDelayDays 3))
  match r.hypotheticalMitigation with
  | some hm => max 0 (base - hm.impactReductionDays.getD 0)
  | none => base

/-- Per-risk delay before the 15-day cap. -/
def riskDelayUncapped (r : Risk) : Days :=
  let impactDays := effectiveImpactDays r
  let probability := r.probability.getD (1 / 2)
  if r.status = some "materialised" then impactDays
  else if r.status = some "open" then impactDays * probability * (3 / 5)
  else if r.status = some "mitigating" then impactDays * (1 / 4)
  else 0

/-- Per-risk delay with the 15-day cap applied. -/
def riskDelayOne (r : Risk) : Days :=
  min (riskDelayUncapped r) 15

/-- Loop body of _calculate_risk_delays: the contribution is recorded with
the uncapped delay (the cap is applied afterwards, to the total only). -/
def riskStep (acc : Days × Tracker) (r : Risk) : Days × Tracker :=
  let title := r.title.getD r.id
  let probability := r.probability.getD (1 / 2)
  let delay := riskDelayUncapped r
  let tr1 :=
    if r.status = some "materialised" then
      trackerAdd acc.2 (Cause.materialisedRiskTag title) delay
    else if r.status = some "open" then
      if delay ≥ 1 / 2 then trackerAdd acc.2 (Cause.openRiskTag title probability) delay
      else acc.2
    else if r.status = some "mitigating" then
      if delay ≥ 1 / 2 then trackerAdd acc.2 (Cause.mitigatingRiskTag title) delay
      else acc.2
    else acc.2
  (acc.1 + riskDelayOne r, tr1)

/-- _calculate_risk_delays. -/
def calculateRiskDelays (milestoneId : String) (st : PyState) (tr : Tracker) :
    Days × Tracker :=
  (getRisksForMilestone milestoneId st).foldl riskStep (0, tr)

/-- _calculate_scope_change_delays. -/
def calculateScopeChangeDelays (milestoneId : String) (st : PyState)
    (tr : Tracker) : Days × Tracker :=
  let start : Days × Tracker :=
    match (st.scenarioScopeChanges.getD []).lookup milestoneId with
    | some effortDelta =>
      if effortDelta > 0 then
        (effortDelta, trackerAdd tr (Cause.scenarioScopeIncreaseTag effortDelta) effortDelta)
      else if effortDelta < 0 then
        let improvement := min 0 (effortDelta * (4 / 5))
        (improvement, trackerAdd tr (Cause.scenarioScopeReductionTag effortDelta) improvement)
      else (0, tr)
    | none => (0, tr)
  st.decisions.foldl
    (fun acc d =>
      if d.decisionType = some "change_scope" ∧ d.status = some "approved" then
        let effortDelta := d.effortDeltaDays.getD 0
        if effortDelta > 0 then
          let delay := effortDelta * (4 / 5)
          (acc.1 + delay,
           trackerAdd acc.2 (Cause.recentScopeChangeTag (d.reason.getD "scope change")) delay)
        else acc
      else acc)
    start

/-- _calculate_capacity_change_delay; the division `1 / multiplier` raises
ZeroDivisionError when a zero multiplier is present in the scenario dict. -/
def calculateCapacityChangeDelay (milestoneId : String) (st : PyState)
    (tr : Tracker) : Except FErr (Days × Tracker) :=
  match (st.scenarioCapacityChanges.getD []).lookup milestoneId with
  | none => Except.ok (0, tr)
  | some multiplier =>
    if multiplier = 1 then Except.ok (0, tr)
    else
      let workItems := getWorkItemsForMilestone milestoneId st
      let remainingEffort :=
        (workItems.filter (fun wi => decide (wi.status ≠ some "completed"))).foldl
          (fun acc wi => acc + wi.estimatedDays.getD 0) 0
      if remainingEffort ≤ 0 then Except.ok (0, tr)
      else if multiplier = 0 then Except.error FErr.zeroDiv
      else
        let delta := remainingEffort * (1 / multiplier - 1)
        Except.ok (delta, trackerAdd tr (Cause.scenarioCapacityChangeTag multiplier) delta)

/-- Result of _calculate_data_quality. -/
structure DataQuality where
  estimateCoverage : Days
  externalDepCount : Nat
  penalty : Days
deriving DecidableEq

/-- _calculate_data_quality. -/
def calculateDataQuality (milestoneId : String) (st : PyState) : DataQuality :=
  let workItems := getWorkItemsForMilestone milestoneId st
  let totalItems := workItems.length
  let withEstimates := (workItems.filter (fun wi => wi.estimatedDays.isSome)).length
  let estimateCoverage : Days :=
    if totalItems = 0 then 1 else (withEstimates : ℚ) / (totalItems : ℚ)
  let extCount :=
    workItems.foldl
      (fun acc wi =>
        acc + (wi.dependencies.filter (fun depId =>
          match wiLookup st.workItems depId with
          | some depWi =>
            match depWi.milestoneId with
            | some m => decide (m ≠ "" ∧ m ≠ milestoneId)
            | none => false
          | none => false)).length)
      0
  let penalty : Days :=
    if estimateCoverage < 1 / 2 then 2
    else if estimateCoverage < 4 / 5 then 1
    else 0
  { estimateCoverage := estimateCoverage, externalDepCount := extCount, penalty := penalty }

/-- _calculate_uncertainty_buffer. -/
def calculateUncertaintyBuffer (milestoneId : String) (st : PyState)
    (externalDepCount : Nat) (dataQuality : DataQuality) (tr : Tracker) :
    Days × Tracker :=
  let risks := getRisksForMilestone milestoneId st
  let openRisks := risks.filter
    (fun r => decide (r.status = some "open") || decide (r.status = some "mitigating"))
  let buffer0 : Days :=
    3 / 2 + (openRisks.length : ℚ) * (3 / 2) + (externalDepCount : ℚ) * (3 / 4) +
      dataQuality.penalty
  let buffer := min buffer0 12
  let tr1 := if buffer > 0 then trackerAdd tr Cause.uncertaintyBufferTag buffer else tr
  (buffer, tr1)

/-- _confidence_level. -/
def confidenceLevelOf (dq : DataQuality) : String :=
  if dq.estimateCoverage ≥ 17 / 20 ∧ dq.externalDepCount ≤ 2 then "MED" else "LOW"

/-- Which of the three headers _build_explanation chooses. -/
inductive ExplMode where
  | scenarioMode (t : ScenarioType)
  | mitigationMode
  | baselineMode
deriving DecidableEq

/-- The data interpolated into the explanation text of _build_explanation. -/
structure ExplanationData where
  mode : ExplMode
  milestoneName : String
  baseline : Days
  p50 : Days
  p80 : Days
  deltaP50 : ℤ
  deltaP80 : ℤ
  topContributors : List Contribution
  confidence : String
  coverage : Days
deriving DecidableEq

/-- _build_explanation, as the data it renders. -/
def buildExplanation (milestone : Milestone) (baseline p50 p80 : Days)
    (tr : Tracker) (opts : ForecastOptions) (confidence : String)
    (dq : DataQuality) : ExplanationData :=
  let mode :=
    match opts.scen with
    | some s => ExplMode.scenarioMode s.stype
    | none =>
      match opts.hypotheticalMitigation with
      | some _ => ExplMode.mitigationMode
      | none => ExplMode.baselineMode
  { mode := mode
    milestoneName := milestone.name.getD milestone.id
    baseline := baseline
    p50 := p50
    p80 := p80
    deltaP50 := ⌊p50 - baseline⌋
    deltaP80 := ⌊p80 - baseline⌋
    topContributors := (trackerGetSorted tr).take 5
    confidence := confidence
    coverage := dq.estimateCoverage }

/-- ForecastResult dataclass. -/
structure ForecastResult where
  p50Date : Days
  p80Date : Days
  deltaP50Days : ℤ
  deltaP80Days : ℤ
  confidenceLevel : String
  contributionBreakdown : List Contribution
  explanation : ExplanationData
deriving DecidableEq

/-- forecastMilestone.  `now` models datetime.now() (forecast.py line 445);
`fuel` is the recursion budget of the memoized resolver. -/
def forecastMilestone (milestoneId : String) (st : PyState)
    (opts : ForecastOptions) (now : Days) (fuel : Nat) :
    Except FErr ForecastResult :=
  match getMilestone milestoneId st with
  | none => Except.error (FErr.notFound milestoneId)
  | some milestone =>
    let baselineDate := milestone.targetDate
    match (applyScenarioPerturbations st milestoneId opts.scen []).1 with
    | Except.error e => Except.error e
    | Except.ok (st1, tr1) =>
      let st2 := (applyHypotheticalMitigation st1 st1 opts.hypotheticalMitigation).1
      match calculateDependencyDelays milestone st2 tr1
          (opts.externalTeamHistory.getD []) now fuel with
      | none => Except.error FErr.fuelOut
      | some (depDelayDays, externalDepCount, tr2) =>
        let riskPair := calculateRiskDelays milestoneId st2 tr2
        let scopePair := calculateScopeChangeDelays milestoneId st2 riskPair.2
        match calculateCapacityChangeDelay milestoneId st2 scopePair.2 with
        | Except.error e => Except.error e
        | Except.ok capPair =>
          let totalDelayDays := depDelayDays + riskPair.1 + scopePair.1 + capPair.1
          let p50Date := baselineDate + totalDelayDays
          let dq := calculateDataQuality milestoneId st2
          let bufPair :=
            calculateUncertaintyBuffer milestoneId st2 externalDepCount dq capPair.2
          let p80Date := p50Date + bufPair.1
          let confidence := confidenceLevelOf dq
          Except.ok
            { p50Date := p50Date
              p80Date := p80Date
              deltaP50Days := ⌊p50Date - baselineDate⌋
              deltaP80Days := ⌊p80Date - baselineDate⌋
              confidenceLevel := confidence
              contributionBreakdown := trackerGetSorted bufPair.2
              explanation :=
                buildExplanation milestone baselineDate p50Date p80Date bufPair.2 opts
                  confidence dq }

/-- The caller's snapshot as observed after a call to forecastMilestone:
identical to the argument except for the mutations the perturbation layer
performs through shared sub-dicts. -/
def forecastStateEffect (milestoneId : String) (st : PyState)
    (opts : ForecastOptions) : PyState :=
  match getMilestone milestoneId st with
  | none => st
  | some _ =>
    let p := applyScenarioPerturbations st milestoneId opts.scen []
    match p.1 with
    | Except.error _ => p.2
    | Except.ok (st1, _) =>
      (applyHypotheticalMitigation st1 p.2 opts.hypotheticalMitigation).2

end ForecastEngine

namespace RuleEngine

/-- EventType enum of decision_risk_engine.py. -/
inductive EvType where
  | dependencyBlocked
  | dependencyUnblocked
  | dependencyUnavailable
  | dependencyAvailable
  | riskCreated
  | riskUpdated
  | riskAcceptanceExpired
  | riskMaterialised
  | decisionCreated
  | decisionApproved
  | decisionSuperseded
  | changeCreated
  | changeApproved
  | changeRejected
  | forecastUpdated
  | forecastThresholdBreached
deriving DecidableEq

/-- Event model: the context fields the rules read. -/
structure Event where
  eventId : String
  eventType : EvType
  dependencyId : Option String
  riskId : Option String
  riskStatus : Option String
  decisionId : Option String
  changeId : Option String
deriving DecidableEq

/-- CommandType enum. -/
inductive CommandType where
  | createRisk
  | updateRisk
  | setRiskStatus
  | linkRiskToMilestone
  | linkDecisionToRisk
  | markDecisionEffective
  | updateForecast
  | recomputeForecast
  | setNextDate
  | assignOwner
  | emitExplanation
  | escalateRisk
deriving DecidableEq

/-- Command model: the identifying fields plus the payload's status entry
(the free-text reason/description strings and the date payload fields are
not modelled). -/
structure Command where
  commandId : String
  commandType : CommandType
  targetId : String
  ruleName : String
  payloadStatus : Option String
  priority : String
deriving DecidableEq

/-- Dependency entry of the rule-engine snapshot. -/
structure DepEntry where
  fromId : Option String
  toId : Option String
deriving DecidableEq

/-- Risk entry of the rule-engine snapshot (only existence and id are read
by the rules modelled here). -/
structure RiskEntry where
  id : Option String
deriving DecidableEq

/-- Decision entry of the rule-engine snapshot. -/
structure DecisionEntry where
  decisionType : Option String
  riskId : Option String
  dueDate : Option String
deriving DecidableEq

/-- Ownership entry of the rule-engine snapshot. -/
structure OwnershipEntry where
  entityId : Option String
  ownerActorId : Option String
deriving DecidableEq

/-- StateSnapshot of the rule engine: dicts keyed by id. -/
structure Snapshot where
  dependencies : List (String × DepEntry)
  risks : List (String × RiskEntry)
  decisions : List (String × DecisionEntry)
  ownerships : List (String × OwnershipEntry)
deriving DecidableEq

/-- Rule1._determine_owner: first ownership whose entity_id equals the
dependency's from_id, else the default owner. -/
def determineOwner (dep : DepEntry) (st : Snapshot) : String :=
  match st.ownerships.find? (fun o => decide (o.2.entityId = dep.fromId)) with
  | some o => o.2.ownerActorId.getD "default_owner"
  | none => "default_owner"

/-- Shared risk-owner lookup of Rule4/Rule5. -/
def getRiskOwner (risk : RiskEntry) (st : Snapshot) : String :=
  match st.ownerships.find? (fun o => decide (o.2.entityId = risk.id)) with
  | some o => o.2.ownerActorId.getD "default_owner"
  | none => "default_owner"

def rule1Name : String := "rule_1_dependency_blocked"

/-- Rule1_DependencyBlocked.matches. -/
def rule1Matches (ev : Event) : Bool :=
  decide (ev.eventType = EvType.dependencyBlocked) ||
  decide (ev.eventType = EvType.dependencyUnavailable)

/-- Rule1_DependencyBlocked.execute: risk create/update (MATERIALISED),
then SET_NEXT_DATE for the owner, then ESCALATE_RISK. -/
def rule1Execute (ev : Event) (st : Snapshot) : List Command :=
  match ev.dependencyId with
  | none => []
  | some depId =>
    if depId = "" then []
    else
      match st.dependencies.lookup depId with
      | none => []
      | some dep =>
        let ownerId := determineOwner dep st
        let riskId := "risk_dep_blocked_" ++ depId
        let riskCmd : Command :=
          match st.risks.lookup riskId with
          | some _ =>
            { commandId := "cmd_" ++ ev.eventId ++ "_update_risk"
              commandType := CommandType.updateRisk
              targetId := riskId
              ruleName := rule1Name
              payloadStatus := some "materialised"
              priority := "urgent" }
          | none =>
            { commandId := "cmd_" ++ ev.eventId ++ "_create_risk"
              commandType := CommandType.createRisk
              targetId := riskId
              ruleName := rule1Name
              payloadStatus := some "materialised"
              priority := "urgent" }
        [riskCmd,
         { commandId := "cmd_" ++ ev.eventId ++ "_set_next_date"
           commandType := CommandType.setNextDate
           targetId := ownerId
           ruleName := rule1Name
           payloadStatus := none
           priority := "urgent" },
         { commandId := "cmd_" ++ ev.eventId ++ "_escalate"
           commandType := CommandType.escalateRisk
           targetId := riskId
           ruleName := rule1Name
           payloadStatus := none
           priority := "urgent" }]

def rule2Name : String := "rule_2_dependency_unblocked"

/-- Rule2_DependencyUnblocked.matches. -/
def rule2Matches (ev : Event) : Bool :=
  decide (ev.eventType = EvType.dependencyUnblocked) ||
  decide (ev.eventType = EvType.dependencyAvailable)

/-- Rule2_DependencyUnblocked.execute. -/
def rule2Execute (ev : Event) (st : Snapshot) : List Command :=
  match ev.dependencyId with
  | none => []
  | some depId =>
    if depId = "" then []
    else
      let riskId := "risk_dep_blocked_" ++ depId
      let closeCmds : List Command :=
        match st.risks.lookup riskId with
        | some _ =>
          [{ commandId := "cmd_" ++ ev.eventId ++ "_close_risk"
             commandType := CommandType.setRiskStatus
             targetId := riskId
             ruleName := rule2Name
             payloadStatus := some "closed"
             priority := "normal" }]
        | none => []
      closeCmds ++
        [{ commandId := "cmd_" ++ ev.eventId ++ "_recompute_forecast"
           commandType := CommandType.recomputeForecast
           targetId := "system"
           ruleName := rule2Name
           payloadStatus := none
           priority := "normal" }]

/-- Rule3_ForecastThresholdBreached.matches (execute is a stub). -/
def rule3Matches (ev : Event) : Bool :=
  decide (ev.eventType = EvType.forecastThresholdBreached)

/-- Rule3 execute stub: always empty. -/
def rule3Execute (_ev : Event) (_st : Snapshot) : List Command := []

/-- Decision lookup via the event's optional decision_id. -/
def eventDecision (ev : Event) (st : Snapshot) : Option DecisionEntry :=
  match ev.decisionId with
  | none => none
  | some did => st.decisions.lookup did

def rule4Name : String := "rule_4_accept_risk_approved"

/-- Rule4_AcceptRiskDecisionApproved.matches. -/
def rule4Matches (ev : Event) (st : Snapshot) : Bool :=
  decide (ev.eventType = EvType.decisionApproved) &&
  (match eventDecision ev st with
   | some d => decide (d.decisionType = some "accept_risk")
   | none => false)

/-- Rule4_AcceptRiskDecisionApproved.execute (date payload fields are not
modelled; the commands' types, targets and status payloads are). -/
def rule4Execute (ev : Event) (st : Snapshot) : List Command :=
  match eventDecision ev st with
  | none => []
  | some decision =>
    match decision.riskId with
    | none => []
    | some riskId =>
      if riskId = "" then []
      else
        match st.risks.lookup riskId with
        | none => []
        | some risk =>
          let ownerId := getRiskOwner risk st
          [{ commandId := "cmd_" ++ ev.eventId ++ "_accept_risk"
             commandType := CommandType.updateRisk
             targetId := riskId
             ruleName := rule4Name
             payloadStatus := some "accepted"
             priority := "normal" },
           { commandId := "cmd_" ++ ev.eventId ++ "_set_next_date_acceptance"
             commandType := CommandType.setNextDate
             targetId := ownerId
             ruleName := rule4Name
             payloadStatus := none
             priority := "normal" }]

def rule5Name : String := "rule_5_mitigate_risk_approved"

/-- Rule5_MitigateRiskDecisionApproved.matches. -/
def rule5Matches (ev : Event) (st : Snapshot) : Bool :=
  decide (ev.eventType = EvType.decisionApproved) &&
  (match eventDecision ev st with
   | some d => decide (d.decisionType = some "mitigate_risk")
   | none => false)

/-- Rule5_MitigateRiskDecisionApproved.execute. -/
def rule5Execute (ev : Event) (st : Snapshot) : List Command :=
  match eventDecision ev st with
  | none => []
  | some decision =>
    match decision.riskId with
    | none => []
    | some riskId =>
      if riskId = "" then []
      else
        match st.risks.lookup riskId with
        | none => []
        | some risk =>
          let dueDateTruthy : Bool :=
            match decision.dueDate with
            | some s => decide (s ≠ "")
            | none => false
          let dueCmds : List Command :=
            if dueDateTruthy then
              [{ commandId := "cmd_" ++ ev.eventId ++ "_set_mitigation_due_date"
                 commandType := CommandType.setNextDate
                 targetId := getRiskOwner risk st
                 ruleName := rule5Name
                 payloadStatus := none
                 priority := "normal" }]
            else []
          ({ commandId := "cmd_" ++ ev.eventId ++ "_mitigate_risk"
             commandType := CommandType.updateRisk
             targetId := riskId
             ruleName := rule5Name
             payloadStatus := some "mitigating"
             priority := "normal" } :: dueCmds) ++
            [{ commandId := "cmd_" ++ ev.eventId ++ "_schedule_forecast"
               commandType := CommandType.updateForecast
               targetId := riskId
               ruleName := rule5Name
               payloadStatus := none
               priority := "normal" }]

def rule6Name : String := "rule_6_risk_materialised"

/-- Rule6_RiskMaterialised.matches. -/
def rule6Matches (ev : Event) : Bool :=
  decide (ev.eventType = EvType.riskMaterialised)

/-- Rule6_RiskMaterialised.execute. -/
def rule6Execute (ev : Event) (_st : Snapshot) : List Command :=
  match ev.riskId with
  | none => []
  | some riskId =>
    if riskId = "" then []
    else
      [{ commandId := "cmd_" ++ ev.eventId ++ "_materialise_risk"
         commandType := CommandType.setRiskStatus
         targetId := riskId
         ruleName := rule6Name
         payloadStatus := some "materialised"
         priority := "urgent" },
       { commandId := "cmd_" ++ ev.eventId ++ "_escalate_materialised"
         commandType := CommandType.escalateRisk
         targetId := riskId
         ruleName := rule6Name
         payloadStatus := none
         priority := "urgent" }]

def rule7Name : String := "rule_7_risk_closed"

/-- Rule7_RiskClosed.matches. -/
def rule7Matches (ev : Event) : Bool :=
  decide (ev.eventType = EvType.riskUpdated) &&
  decide (ev.riskStatus = some "closed")

/-- Rule7_RiskClosed.execute. -/
def rule7Execute (ev : Event) (_st : Snapshot) : List Command :=
  [{ commandId := "cmd_" ++ ev.eventId ++ "_recompute_forecast_on_close"
     commandType := CommandType.recomputeForecast
     targetId := "system"
     ruleName := rule7Name
     payloadStatus := none
     priority := "normal" }]

/-- Rule8_ChangeApproved.matches (execute is a stub returning []). -/
def rule8Matches (ev : Event) : Bool :=
  decide (ev.eventType = EvType.changeApproved)

/-- Rule8 execute stub. -/
def rule8Execute (_ev : Event) (_st : Snapshot) : List Command := []

/-- Rule9_DecisionSuperseded.matches (execute is a stub returning []). -/
def rule9Matches (ev : Event) : Bool :=
  decide (ev.eventType = EvType.decisionSuperseded)

/-- Rule9 execute stub. -/
def rule9Execute (_ev : Event) (_st : Snapshot) : List Command := []

/-- DecisionRiskEngine.process_event: evaluates the nine rules in their
registration order and concatenates the commands of every matching rule. -/
def processEvent (ev : Event) (st : Snapshot) : List Command :=
  (if rule1Matches ev then rule1Execute ev st else []) ++
  (if rule2Matches ev then rule2Execute ev st else []) ++
  (if rule3Matches ev then rule3Execute ev st else []) ++
  (if rule4Matches ev st then rule4Execute ev st else []) ++
  (if rule5Matches ev st then rule5Execute ev st else []) ++
  (if rule6Matches ev then rule6Execute ev st else []) ++
  (if rule7Matches ev then rule7Execute ev st else []) ++
  (if rule8Matches ev then rule8Execute ev st else []) ++
  (if rule9Matches ev then rule9Execute ev st else [])

end RuleEngine

deriving instance DecidableEq for Except

namespace ForecastEngine

/-- Decidable test for the NotFound error of forecastMilestone. -/
def isNotFoundError (x : Except FErr ForecastResult) : Bool :=
  match x with
  | Except.error (FErr.notFound _) => true
  | _ => false

/-- Concrete milestone used by the test fixtures below. -/
def msM : Milestone := { id := "M", name := some "M", targetDate := 0 }

/-- Empty options: a plain baseline forecast call. -/
def noOptions : ForecastOptions :=
  { scen := none, hypotheticalMitigation := none, externalTeamHistory := none }

/-- Fixture: milestone work item A depending on U (chain A → U → V). -/
def wiA : WorkItem :=
  { id := "A", title := none, status := some "not_started", milestoneId := some "M",
    estimatedDays := some 5, completionPercentage := none, remainingDays := none,
    externalTeamId := none, expectedCompletionDate := none, confidenceLevel := none,
    startDate := none, dependencies := ["U"] }

/-- Fixture: intermediate work item U depending on V. -/
def wiU : WorkItem :=
  { id := "U", title := none, status := some "not_started", milestoneId := none,
    estimatedDays := some 1, completionPercentage := none, remainingDays := none,
    externalTeamId := none, expectedCompletionDate := none, confidenceLevel := none,
    startDate := none, dependencies := ["V"] }

/-- Fixture: leaf work item V carrying an expected_completion_date, the field
whose handling reads datetime.now(). -/
def wiV : WorkItem :=
  { id := "V", title := none, status := some "not_started", milestoneId := none,
    estimatedDays := some 1, completionPercentage := none, remainingDays := none,
    externalTeamId := none, expectedCompletionDate := some 100, confidenceLevel := none,
    startDate := none, dependencies := [] }

/-- Fixture state with the chain A → U → V. -/
def stNowDep : PyState :=
  { milestones := [msM], workItems := [wiA, wiU, wiV], dependencies := [], risks := [],
    decisions := [], scenarioDelays := none, scenarioScopeChanges := none,
    scenarioCapacityChanges := none }

/-- Fixture: completed milestone work item with no dependents. -/
def wiW : WorkItem :=
  { id := "W", title := none, status := some "completed", milestoneId := some "M",
    estimatedDays := some 5, completionPercentage := none, remainingDays := none,
    externalTeamId := none, expectedCompletionDate := none, confidenceLevel := none,
    startDate := none, dependencies := [] }

/-- Fixture state containing only the completed item W. -/
def stW : PyState :=
  { milestones := [msM], workItems := [wiW], dependencies := [], risks := [],
    decisions := [], scenarioDelays := none, scenarioScopeChanges := none,
    scenarioCapacityChanges := none }

/-- Scenario targeting the completed item W with a 7-day override. -/
def scenW : ScenarioSpec :=
  { stype := ScenarioType.dependencyDelay,
    params := { workItemId := some "W", delayDays := some 7, effortDeltaDays := none,
                capacityMultiplier := none } }

/-- Options carrying scenW. -/
def optsScenW : ForecastOptions :=
  { scen := some scenW, hypotheticalMitigation := none, externalTeamHistory := none }

/-- The literal result of the baseline forecast on stW. -/
def resW : ForecastResult :=
  { p50Date := 0, p80Date := 3 / 2, deltaP50Days := 0, deltaP80Days := 1,
    confidenceLevel := "MED",
    contributionBreakdown := [⟨Cause.uncertaintyBufferTag, 3 / 2⟩],
    explanation :=
      { mode := ExplMode.baselineMode, milestoneName := "M", baseline := 0, p50 := 0,
        p80 := 3 / 2, deltaP50 := 0, deltaP80 := 1,
        topContributors := [⟨Cause.uncertaintyBufferTag, 3 / 2⟩], confidence := "MED",
        coverage := 1 } }

/-- Fixture state whose snapshot already carries a scenario_delays dict (the
shallow copy then shares and mutates it). -/
def stDirty : PyState :=
  { milestones := [msM], workItems := [], dependencies := [], risks := [],
    decisions := [], scenarioDelays := some [], scenarioScopeChanges := none,
    scenarioCapacityChanges := none }

/-- Scenario adding a 3-day dependency delay on item A. -/
def scenA : ScenarioSpec :=
  { stype := ScenarioType.dependencyDelay,
    params := { workItemId := some "A", delayDays := some 3, effortDeltaDays := none,
                capacityMultiplier := none } }

/-- Options carrying scenA. -/
def optsScenA : ForecastOptions :=
  { scen := some scenA, hypotheticalMitigation := none, externalTeamHistory := none }

/-- Fixture: work item in a two-cycle (A depends on B). -/
def wiCycA : WorkItem :=
  { id := "A", title := none, status := some "not_started", milestoneId := some "M",
    estimatedDays := none, completionPercentage := none, remainingDays := none,
    externalTeamId := none, expectedCompletionDate := none, confidenceLevel := none,
    startDate := none, dependencies := ["B"] }

/-- Fixture: work item in a two-cycle (B depends on A). -/
def wiCycB : WorkItem :=
  { id := "B", title := none, status := some "not_started", milestoneId := some "M",
    estimatedDays := none, completionPercentage := none, remainingDays := none,
    externalTeamId := none, expectedCompletionDate := none, confidenceLevel := none,
    startDate := none, dependencies := ["A"] }

/-- Fixture state with the cyclic dependency graph A ↔ B. -/
def stCyc : PyState :=
  { milestones := [msM], workItems := [wiCycA, wiCycB], dependencies := [], risks := [],
    decisions := [], scenarioDelays := none, scenarioScopeChanges := none,
    scenarioCapacityChanges := none }

/-- The resolution context calculateDependencyDelays builds for stCyc. -/
def ctxCyc : DepCtx :=
  { milestoneId := "M", allItems := stCyc.workItems, deps := [], scenarioDelays := [],
    extHistory := [] }

/-- The resolution context of the scenario run on stW: the override targets W. -/
def ctxW : DepCtx :=
  { milestoneId := "M", allItems := [wiW], deps := [], scenarioDelays := [("W", 7)],
    extHistory := [] }

/-- Fixture risk with impact 10 days and probability 1, status open. -/
def rOpenEx : Risk :=
  { id := "R", title := none, status := some "open", probability := some 1,
    impact := some { impactDays := some 10, delayDays := none, scheduleDelayDays := none },
    milestoneId := some "M", affectedItems := [], hypotheticalMitigation := none }

/-- Fixture risk whose impact dict carries none of the three day keys. -/
def rNoImpact : Risk :=
  { id := "R2", title := some "t", status := some "materialised",
    probability := some (1 / 2),
    impact := some { impactDays := none, delayDays := none, scheduleDelayDays := none },
    milestoneId := some "M", affectedItems := [], hypotheticalMitigation := none }

/-- Scenario with capacity_multiplier exactly 0. -/
def scenCap0 : ScenarioSpec :=
  { stype := ScenarioType.capacityChange,
    params := { workItemId := none, delayDays := none, effortDeltaDays := none,
                capacityMultiplier := some 0 } }

/-- Options carrying scenCap0. -/
def optsCap0 : ForecastOptions :=
  { scen := some scenCap0, hypotheticalMitigation := none, externalTeamHistory := none }

/-- State with no milestones at all. -/
def stEmpty : PyState :=
  { milestones := [], workItems := [], dependencies := [], risks := [], decisions := [],
    scenarioDelays := none, scenarioScopeChanges := none, scenarioCapacityChanges := none }

end ForecastEngine

namespace RuleEngine

/-- Fixture dependency_blocked event naming dependency d1. -/
def evB : Event :=
  { eventId := "e1", eventType := EvType.dependencyBlocked, dependencyId := some "d1",
    riskId := none, riskStatus := none, decisionId := none, changeId := none }

/-- Fixture snapshot containing dependency d1. -/
def stB : Snapshot :=
  { dependencies := [("d1", { fromId := some "x", toId := some "y" })], risks := [],
    decisions := [], ownerships := [] }

end RuleEngine

namespace ForecastEngine

/-- Mapping a function that fixes every element of a list is the identity. -/
theorem mapIdOn {α : Type} (l : List α) (f : α → α) (h : ∀ x ∈ l, f x = x) :
    l.map f = l := by
  induction l with
  | nil => rfl
  | cons a as ih =>
    simp only [List.map_cons, h a (List.mem_cons_self a as),
      ih (fun x hx => h x (List.mem_cons_of_mem a hx))]

/-- When the snapshot has none of the three scenario keys, the perturbation
layer leaves the original untouched (the fresh inner dict lands only on the
copy). -/
theorem applyScen_orig_eq (st : PyState) (mid : String) (scen : Option ScenarioSpec)
    (tr : Tracker)
    (h1 : st.scenarioDelays = none) (h2 : st.scenarioScopeChanges = none)
    (h3 : st.scenarioCapacityChanges = none) :
    (applyScenarioPerturbations st mid scen tr).2 = st := by
  cases scen with
  | none => rfl
  | some s =>
    cases s.stype <;>
      simp only [applyScenarioPerturbations, perturbDependencyDelay, perturbScopeChange,
        perturbCapacityChange, h1, h2, h3] <;>
      (repeat' split) <;> rfl

/-- When no risk of the original carries a hypothetical_mitigation dict, the
mitigation step leaves the original untouched. -/
theorem applyMit_orig_eq (st1 orig : PyState) (mit : Option HypotheticalMitigation)
    (h4 : ∀ r ∈ orig.risks, r.hypotheticalMitigation = none) :
    (applyHypotheticalMitigation st1 orig mit).2 = orig := by
  cases mit with
  | none => rfl
  | some m =>
    have hmap : orig.risks.map (fun r =>
        if r.id = m.riskId ∧ ((match m.expectedImpactReductionDays with
            | some red => decide (red ≠ 0)
            | none => false) : Bool) = true ∧ r.hypotheticalMitigation.isSome then
          { r with hypotheticalMitigation := some ⟨m.expectedImpactReductionDays⟩ }
        else r) = orig.risks := by
      apply mapIdOn
      intro r hr
      rw [if_neg]
      intro hcon
      have := hcon.2.2
      rw [h4 r hr] at this
      simp at this
    simp only [applyHypotheticalMitigation, hmap]

/-- The only exception the capacity perturbation can raise is the zero
division. -/
theorem perturbCapacityChange_error (st : PyState) (mid : String)
    (params : ScenarioParams) (tr : Tracker) (e : FErr)
    (h : (perturbCapacityChange st mid params tr).1 = Except.error e) :
    e = FErr.zeroDiv := by
  unfold perturbCapacityChange at h
  by_cases h1 : params.capacityMultiplier.getD 1 ≠ 1
  · rw [if_pos h1] at h
    simp only [apply_ite
      (Prod.fst (α := Except FErr (PyState × Tracker)) (β := PyState))] at h
    by_cases h2 : params.capacityMultiplier.getD 1 < 1
    · rw [if_pos h2] at h
      by_cases h3 : params.capacityMultiplier.getD 1 = 0
      · rw [if_pos h3] at h
        exact (Except.error.inj h).symm
      · rw [if_neg h3] at h
        exact Except.noConfusion h
    · rw [if_neg h2] at h
      exact Except.noConfusion h
  · rw [if_neg h1] at h
    exact Except.noConfusion h

/-- The only exception the scenario perturbation layer can raise is the zero
division of the capacity change. -/
theorem applyScen_error_zeroDiv (st : PyState) (mid : String)
    (scen : Option ScenarioSpec) (tr : Tracker) (e : FErr)
    (h : (applyScenarioPerturbations st mid scen tr).1 = Except.error e) :
    e = FErr.zeroDiv := by
  cases scen with
  | none => simp [applyScenarioPerturbations] at h
  | some s =>
    obtain ⟨stype, params⟩ := s
    cases stype with
    | dependencyDelay => simp [applyScenarioPerturbations] at h
    | scopeChange => simp [applyScenarioPerturbations] at h
    | capacityChange => exact perturbCapacityChange_error st mid params tr e h

/-- The only exception the capacity calculator can raise is the zero
division. -/
theorem capacity_error_zeroDiv (mid : String) (st : PyState) (tr : Tracker) (e : FErr)
    (h : calculateCapacityChangeDelay mid st tr = Except.error e) : e = FErr.zeroDiv := by
  unfold calculateCapacityChangeDelay at h
  rcases hl : List.lookup mid (st.scenarioCapacityChanges.getD []) with _ | m <;>
    simp only [hl] at h
  · cases h
  · by_cases h1 : m = 1
    · rw [if_pos h1] at h; cases h
    · rw [if_neg h1] at h
      by_cases h2 :
          List.foldl (fun acc wi => acc + wi.estimatedDays.getD 0) 0
            (List.filter (fun wi => decide (wi.status ≠ some "completed"))
              (getWorkItemsForMilestone mid st)) ≤ 0
      · rw [if_pos h2] at h; cases h
      · rw [if_neg h2] at h
        by_cases h3 : m = 0
        · rw [if_pos h3] at h
          exact (Except.error.inj h).symm
        · rw [if_neg h3] at h; cases h

/-- A scenario override of d days forces the own delay up to at least
max 0 d. -/
theorem ownDelayOf_ge_override (ctx : DepCtx) (wiId : String) (wi : WorkItem) (d : Days)
    (h : ctx.scenarioDelays.lookup wiId = some d) :
    max 0 d ≤ ownDelayOf ctx wiId wi := by
  simp only [ownDelayOf, h]
  repeat' split
  all_goals first | exact le_max_left _ _ | exact le_rfl

/-- The data-quality penalty is never negative. -/
theorem dataQuality_penalty_nonneg (mid : String) (st : PyState) :
    0 ≤ (calculateDataQuality mid st).penalty := by
  unfold calculateDataQuality
  dsimp only
  repeat' split
  all_goals norm_num

/-- The uncertainty buffer lies in [0, 12] whenever the penalty is
nonnegative. -/
theorem buffer_bounds (mid : String) (st : PyState) (ext : Nat) (dq : DataQuality)
    (tr : Tracker) (hpen : 0 ≤ dq.penalty) :
    0 ≤ (calculateUncertaintyBuffer mid st ext dq tr).1 ∧
      (calculateUncertaintyBuffer mid st ext dq tr).1 ≤ 12 := by
  unfold calculateUncertaintyBuffer
  dsimp only
  constructor
  · apply le_min _ (by norm_num)
    have hA : (0:ℚ) ≤ ((List.filter
        (fun r => decide (r.status = some "open") || decide (r.status = some "mitigating"))
        (getRisksForMilestone mid st)).length : ℚ) := Nat.cast_nonneg _
    have hB : (0:ℚ) ≤ (ext : ℚ) := Nat.cast_nonneg _
    linarith
  · exact min_le_right _ _

/-- Whenever forecastMilestone succeeds, P80 is P50 plus a buffer in
[0, 12]. -/
theorem forecast_p80_ge_p50 (mid : String) (st : PyState) (opts : ForecastOptions)
    (now : Days) (fuel : Nat) (res : ForecastResult)
    (hok : forecastMilestone mid st opts now fuel = Except.ok res) :
    res.p50Date ≤ res.p80Date ∧ res.p80Date ≤ res.p50Date + 12 := by
  unfold forecastMilestone at hok
  cases hm : getMilestone mid st <;> simp only [hm] at hok
  case none => cases hok
  case some ms =>
  cases hs : (applyScenarioPerturbations st mid opts.scen []).1 <;> simp only [hs] at hok
  case error e => cases hok
  case ok val =>
  obtain ⟨st1, tr1⟩ := val
  cases hd : calculateDependencyDelays ms
      ((applyHypotheticalMitigation st1 st1 opts.hypotheticalMitigation).1) tr1
      (opts.externalTeamHistory.getD []) now fuel <;> simp only [hd] at hok
  case none => cases hok
  case some trip =>
  obtain ⟨dd, ec, tr2⟩ := trip
  cases hc : calculateCapacityChangeDelay mid
      ((applyHypotheticalMitigation st1 st1 opts.hypotheticalMitigation).1)
      (calculateScopeChangeDelays mid
        ((applyHypotheticalMitigation st1 st1 opts.hypotheticalMitigation).1)
        (calculateRiskDelays mid
          ((applyHypotheticalMitigation st1 st1 opts.hypotheticalMitigation).1) tr2).2).2
      <;> simp only [hc] at hok
  case error e => cases hok
  case ok cp =>
  have hrec := Except.ok.inj hok
  rw [← hrec]
  dsimp only
  have hb := buffer_bounds mid
      ((applyHypotheticalMitigation st1 st1 opts.hypotheticalMitigation).1) ec
      (calculateDataQuality mid
        ((applyHypotheticalMitigation st1 st1 opts.hypotheticalMitigation).1)) cp.2
      (dataQuality_penalty_nonneg mid
        ((applyHypotheticalMitigation st1 st1 opts.hypotheticalMitigation).1))
  constructor
  · linarith [hb.1]
  · linarith [hb.2]

/-- The date-based edge heuristic is the only reader of `now`: with no
expected_completion_date the edge delay is time-independent. -/
theorem calculateRealisticDelay_now (ctx : DepCtx) (n1 n2 : Days) (wi depWi : WorkItem)
    (props : Option DepEdge) (h : depWi.expectedCompletionDate = none) :
    calculateRealisticDelay ctx n1 wi depWi props =
      calculateRealisticDelay ctx n2 wi depWi props := by
  unfold calculateRealisticDelay
  rw [h]

/-- A successful wiLookup returns an element of the list. -/
theorem wiLookup_mem {items : List WorkItem} {i : String} {w : WorkItem}
    (h : wiLookup items i = some w) : w ∈ items := by
  have := List.mem_of_find?_eq_some h
  simpa using this

/-- Time-independence of the dependency loop, given time-independence of the
recursive call. -/
theorem delayLoopAux_now (ctx : DepCtx) (n1 n2 : Days)
    (recur1 recur2 : String → Memo → Option (Days × Memo)) (wi : WorkItem)
    (h : ∀ w ∈ ctx.allItems, w.expectedCompletionDate = none)
    (hr : ∀ i m, recur1 i m = recur2 i m) :
    ∀ ups memo acc, delayLoopAux ctx n1 recur1 wi ups memo acc =
      delayLoopAux ctx n2 recur2 wi ups memo acc := by
  intro ups
  induction ups with
  | nil => intro memo acc; rfl
  | cons u rest ih =>
    intro memo acc
    unfold delayLoopAux
    cases hw : wiLookup ctx.allItems u with
    | none =>
      simp only [hw]
      exact ih memo acc
    | some upWi =>
      simp only [hw]
      rw [calculateRealisticDelay_now ctx n1 n2 wi upWi _ (h upWi (wiLookup_mem hw))]
      rw [hr u memo]
      cases hrec : recur2 u memo with
      | none => simp only [hrec]
      | some val =>
        obtain ⟨ud, m1⟩ := val
        simp only [hrec]
        exact ih m1 _

/-- Time-independence of the resolver body. -/
theorem delayForWorkItemGo_now (ctx : DepCtx) (n1 n2 : Days)
    (recur1 recur2 : String → Memo → Option (Days × Memo))
    (h : ∀ w ∈ ctx.allItems, w.expectedCompletionDate = none)
    (hr : ∀ i m, recur1 i m = recur2 i m) :
    ∀ wiId memo, delayForWorkItemGo ctx n1 recur1 wiId memo =
      delayForWorkItemGo ctx n2 recur2 wiId memo := by
  intro wiId memo
  unfold delayForWorkItemGo
  cases hm : memo.lookup wiId with
  | some v => simp only [hm]
  | none =>
    simp only [hm]
    cases hw : wiLookup ctx.allItems wiId with
    | none => simp only [hw]
    | some wi =>
      simp only [hw]
      split
      · rfl
      · rw [delayLoopAux_now ctx n1 n2 recur1 recur2 wi h hr]

/-- Time-independence of the memoized resolver at every recursion budget. -/
theorem delayForWorkItem_now (ctx : DepCtx)
    (h : ∀ w ∈ ctx.allItems, w.expectedCompletionDate = none) :
    ∀ (fuel : Nat) (n1 n2 : Days) (wiId : String) (memo : Memo),
      delayForWorkItem ctx n1 fuel wiId memo = delayForWorkItem ctx n2 fuel wiId memo := by
  intro fuel
  induction fuel with
  | zero => intro n1 n2 wiId memo; rfl
  | succ f ih =>
    intro n1 n2 wiId memo
    show delayForWorkItemGo ctx n1 (delayForWorkItem ctx n1 f) wiId memo =
      delayForWorkItemGo ctx n2 (delayForWorkItem ctx n2 f) wiId memo
    exact delayForWorkItemGo_now ctx n1 n2 _ _ h (fun i m => ih n1 n2 i m) wiId memo

/-- Time-independence of the per-item upstream evaluation loop. -/
theorem topUpstreamLoop_now (ctx : DepCtx) (n1 n2 : Days) (fuel : Nat)
    (h : ∀ w ∈ ctx.allItems, w.expectedCompletionDate = none) :
    ∀ ups memo tr wiMax ext,
      topUpstreamLoop ctx n1 fuel ups memo tr wiMax ext =
        topUpstreamLoop ctx n2 fuel ups memo tr wiMax ext := by
  intro ups
  induction ups with
  | nil => intro memo tr wiMax ext; rfl
  | cons u rest ih =>
    intro memo tr wiMax ext
    unfold topUpstreamLoop
    cases hw : wiLookup ctx.allItems u with
    | none =>
      simp only [hw]
      exact ih memo tr wiMax ext
    | some upWi =>
      simp only [hw]
      rw [delayForWorkItem_now ctx h fuel n1 n2 u memo]
      cases hrec : delayForWorkItem ctx n2 fuel u memo with
      | none => simp only [hrec]
      | some val =>
        obtain ⟨ud, m1⟩ := val
        simp only [hrec]
        exact ih m1 _ _ _

/-- Time-independence of the milestone item loop. -/
theorem topItemsLoop_now (ctx : DepCtx) (n1 n2 : Days) (fuel : Nat)
    (h : ∀ w ∈ ctx.allItems, w.expectedCompletionDate = none) :
    ∀ items memo tr total ext,
      topItemsLoop ctx n1 fuel items memo tr total ext =
        topItemsLoop ctx n2 fuel items memo tr total ext := by
  intro items
  induction items with
  | nil => intro memo tr total ext; rfl
  | cons wi rest ih =>
    intro memo tr total ext
    unfold topItemsLoop
    split
    · exact ih memo tr total ext
    · rw [topUpstreamLoop_now ctx n1 n2 fuel h]
      cases hrec : topUpstreamLoop ctx n2 fuel (incomingFor ctx.allItems wi.id) memo tr 0 ext with
      | none => simp only [hrec]
      | some val =>
        obtain ⟨wiMax, ext1, memo1, tr1⟩ := val
        simp only [hrec]
        exact ih memo1 tr1 _ _

/-- Time-independence of the full dependency-delay computation when no work
item carries an expected completion date. -/
theorem calculateDependencyDelays_now (ms : Milestone) (st : PyState) (tr : Tracker)
    (hist : List (String × ExternalTeamHistory)) (n1 n2 : Days) (fuel : Nat)
    (h : ∀ w ∈ st.workItems, w.expectedCompletionDate = none) :
    calculateDependencyDelays ms st tr hist n1 fuel =
      calculateDependencyDelays ms st tr hist n2 fuel := by
  simp only [calculateDependencyDelays]
  rw [topItemsLoop_now _ n1 n2 fuel h]

/-- The dependency-delay perturbation does not touch the work items. -/
theorem perturbDependencyDelay_wi (st : PyState) (params : ScenarioParams) :
    (perturbDependencyDelay st params).1.workItems = st.workItems := by
  simp only [perturbDependencyDelay]
  repeat' split
  all_goals rfl

/-- The scope perturbation does not touch the work items. -/
theorem perturbScopeChange_wi (st : PyState) (mid : String) (params : ScenarioParams)
    (tr : Tracker) :
    (perturbScopeChange st mid params tr).1.workItems = st.workItems := by
  simp only [perturbScopeChange]
  repeat' split
  all_goals rfl

/-- A successful capacity perturbation does not touch the work items. -/
theorem perturbCapacityChange_ok_wi (st : PyState) (mid : String)
    (params : ScenarioParams) (tr : Tracker) (res : PyState × Tracker)
    (h : (perturbCapacityChange st mid params tr).1 = Except.ok res) :
    res.1.workItems = st.workItems := by
  unfold perturbCapacityChange at h
  by_cases h1 : params.capacityMultiplier.getD 1 ≠ 1
  · rw [if_pos h1] at h
    rcases hsc : st.scenarioCapacityChanges with _ | mm <;> simp only [hsc] at h
    · by_cases h2 : params.capacityMultiplier.getD 1 < 1
      · rw [if_pos h2] at h
        by_cases h3 : params.capacityMultiplier.getD 1 = 0
        · rw [if_pos h3] at h; cases h
        · rw [if_neg h3] at h
          rw [← congrArg Prod.fst (Except.ok.inj h)]
      · rw [if_neg h2] at h
        rw [← congrArg Prod.fst (Except.ok.inj h)]
    · by_cases h2 : params.capacityMultiplier.getD 1 < 1
      · rw [if_pos h2] at h
        by_cases h3 : params.capacityMultiplier.getD 1 = 0
        · rw [if_pos h3] at h; cases h
        · rw [if_neg h3] at h
          rw [← congrArg Prod.fst (Except.ok.inj h)]
      · rw [if_neg h2] at h
        rw [← congrArg Prod.fst (Except.ok.inj h)]
  · rw [if_neg h1] at h
    rw [← congrArg Prod.fst (Except.ok.inj h)]

/-- A successful scenario perturbation does not touch the work items. -/
theorem applyScen_ok_workItems (st : PyState) (mid : String) (scen : Option ScenarioSpec)
    (tr : Tracker) (st1 : PyState) (tr1 : Tracker)
    (h : (applyScenarioPerturbations st mid scen tr).1 = Except.ok (st1, tr1)) :
    st1.workItems = st.workItems := by
  cases scen with
  | none =>
    have h3 : st = st1 := congrArg Prod.fst (Except.ok.inj h)
    rw [← h3]
  | some s =>
    obtain ⟨stype, params⟩ := s
    cases stype with
    | dependencyDelay =>
      simp only [applyScenarioPerturbations] at h
      have h3 : (perturbDependencyDelay st params).1 = st1 :=
        congrArg Prod.fst (Except.ok.inj h)
      rw [← h3, perturbDependencyDelay_wi]
    | scopeChange =>
      simp only [applyScenarioPerturbations] at h
      have h3 : (perturbScopeChange st mid params tr).1 = st1 :=
        congrArg Prod.fst (Except.ok.inj h)
      rw [← h3, perturbScopeChange_wi]
    | capacityChange =>
      exact perturbCapacityChange_ok_wi st mid params tr (st1, tr1) h

/-- The hypothetical-mitigation step does not touch the work items. -/
theorem applyMit_workItems (st orig : PyState) (mit : Option HypotheticalMitigation) :
    (applyHypotheticalMitigation st orig mit).1.workItems = st.workItems := by
  cases mit <;> rfl

/-- On the cyclic graph A ↔ B the resolver exhausts every recursion budget:
the memo entry is only written after the recursive calls return, so the
re-entered node is never found memoized. -/
theorem cyclicResolverDiverges : ∀ (now : Days) (f : Nat),
    delayForWorkItem ctxCyc now f "A" [] = none ∧
    delayForWorkItem ctxCyc now f "B" [] = none := by
  intro now f
  induction f with
  | zero => exact ⟨rfl, rfl⟩
  | succ n ih =>
    simp only [ctxCyc, stCyc, wiCycA, wiCycB, msM] at ih ⊢
    constructor
    · show delayForWorkItemGo _ now (delayForWorkItem _ now n) "A" [] = none
      simp [delayForWorkItemGo, delayLoopAux, wiLookup, incomingFor, ih.2]
    · show delayForWorkItemGo _ now (delayForWorkItem _ now n) "B" [] = none
      simp [delayForWorkItemGo, delayLoopAux, wiLookup, incomingFor, ih.1]

end ForecastEngine

namespace ForecastEngine

/-- C1 (amended): for a fixed wall-clock instant the forecast is a pure
function of (milestone_id, state, options); moreover, whenever no work item
carries an expected_completion_date — the one field whose handling reads
datetime.now() — the result is identical across all wall-clock instants.  As
stated, bit-identical results across wall-clock times do not hold in general
(see the counterexample). -/
theorem forecast_now_invariant (mid : String) (st : PyState) (opts : ForecastOptions)
    (fuel : Nat) (n1 n2 : Days)
    (h : ∀ w ∈ st.workItems, w.expectedCompletionDate = none) :
    forecastMilestone mid st opts n1 fuel = forecastMilestone mid st opts n2 fuel := by
  cases hm : getMilestone mid st with
  | none => unfold forecastMilestone; simp only [hm]
  | some ms =>
    unfold forecastMilestone
    simp only [hm]
    cases hs : (applyScenarioPerturbations st mid opts.scen []).1 with
    | error e => simp only [hs]
    | ok val =>
      obtain ⟨st1, tr1⟩ := val
      simp only [hs]
      have hw2 : ∀ w ∈ ((applyHypotheticalMitigation st1 st1
          opts.hypotheticalMitigation).1).workItems, w.expectedCompletionDate = none := by
        rw [applyMit_workItems, applyScen_ok_workItems st mid opts.scen [] st1 tr1 hs]
        exact h
      rw [calculateDependencyDelays_now ms _ tr1 (opts.externalTeamHistory.getD [])
        n1 n2 fuel hw2]

/-- C1 witness: the time-invariance theorem applied to the concrete snapshot
stW (no expected completion dates) at two different wall-clock instants. -/
theorem forecast_now_invariant_witness :
    forecastMilestone "M" stW noOptions 0 3 = forecastMilestone "M" stW noOptions 99 3 :=
  forecast_now_invariant "M" stW noOptions 3 0 99
    (by intro w hw; simp only [stW, List.mem_singleton] at hw; subst hw; rfl)

/-- C1 counterexample: the same (milestone_id, state, options) forecast at two
wall-clock instants yields different results — a chain A → U → V where V has
expected_completion_date 100 makes the date-based edge delay read
datetime.now(), giving delta_p50 100 at time 0 and 50 at time 50. -/
theorem forecast_now_dependence_cex :
    forecastMilestone "M" stNowDep noOptions 0 5 ≠
      forecastMilestone "M" stNowDep noOptions 50 5 ∧
    (forecastMilestone "M" stNowDep noOptions 0 5).toOption.map
      (fun r => r.deltaP50Days) = some 100 ∧
    (forecastMilestone "M" stNowDep noOptions 50 5).toOption.map
      (fun r => r.deltaP50Days) = some 50 := by
  refine ⟨?_, ?_, ?_⟩ <;>
    simp [forecastMilestone, getMilestone, applyScenarioPerturbations,
      applyHypotheticalMitigation, perturbDependencyDelay, perturbScopeChange,
      perturbCapacityChange, calculateDependencyDelays, topItemsLoop, topUpstreamLoop,
      delayForWorkItem, delayForWorkItemGo, delayLoopAux, ownDelayOf,
      calculateRealisticDelay, wiLookup, incomingFor, depPropsFind,
      getWorkItemsForMilestone, getRisksForMilestone, calculateRiskDelays, riskStep,
      calculateScopeChangeDelays, calculateCapacityChangeDelay, calculateDataQuality,
      calculateUncertaintyBuffer, confidenceLevelOf, trackerAdd, trackerGetSorted,
      insertContrib, pyRound1, buildExplanation, critMultiplier, pyOrQ,
      effectiveImpactDays, riskDelayUncapped, riskDelayOne, dictInsert, List.lookup,
      List.find?, List.filter, List.foldl, List.map, List.reverse, List.length,
      List.contains, List.any, List.flatten, List.take, List.reverseAux, Option.getD,
      Option.isSome, Option.isNone, Option.map, Except.toOption,
      stNowDep, msM, noOptions, wiA, wiU, wiV] <;>
    norm_num [min_def, max_def, Int.fract, pyRound1, insertContrib, List.foldl,
      List.map, List.take]

/-- C2 (amended): a call to forecastMilestone leaves the caller's snapshot
unchanged provided the snapshot does not already contain the internal
scenario_delays / scenario_scope_changes / scenario_capacity_changes keys and
none of its risks already carries a hypothetical_mitigation dict; without
those provisos the shallow dict(state) copy shares the inner dicts with the
caller and the perturbation layer mutates them (see the counterexample). -/
theorem forecast_nonmutation_clean_snapshot (mid : String) (st : PyState)
    (opts : ForecastOptions)
    (h1 : st.scenarioDelays = none) (h2 : st.scenarioScopeChanges = none)
    (h3 : st.scenarioCapacityChanges = none)
    (h4 : ∀ r ∈ st.risks, r.hypotheticalMitigation = none) :
    forecastStateEffect mid st opts = st := by
  cases hm : getMilestone mid st with
  | none => unfold forecastStateEffect; simp only [hm]
  | some ms =>
    unfold forecastStateEffect
    simp only [hm]
    cases hs : (applyScenarioPerturbations st mid opts.scen []).1 with
    | error e =>
      simp only [hs]
      exact applyScen_orig_eq st mid opts.scen [] h1 h2 h3
    | ok val =>
      obtain ⟨st1, tr1⟩ := val
      simp only [hs]
      rw [applyScen_orig_eq st mid opts.scen [] h1 h2 h3]
      exact applyMit_orig_eq st1 st opts.hypotheticalMitigation h4

/-- C2 witness: the non-mutation theorem applied to the clean snapshot stW
under a dependency-delay scenario. -/
theorem forecast_nonmutation_witness :
    forecastStateEffect "M" stW optsScenW = stW :=
  forecast_nonmutation_clean_snapshot "M" stW optsScenW rfl rfl rfl
    (by intro r hr; simp [stW] at hr)

/-- C2 counterexample: on a snapshot that already carries a scenario_delays
dict, a dependency-delay scenario call writes through the shared inner dict:
the caller's snapshot is mutated from scenario_delays = {} to {A: 3}. -/
theorem forecast_mutation_cex :
    forecastStateEffect "M" stDirty optsScenA ≠ stDirty ∧
    (forecastStateEffect "M" stDirty optsScenA).scenarioDelays = some [("A", 3)] := by
  refine ⟨?_, ?_⟩ <;>
    simp [forecastStateEffect, getMilestone, applyScenarioPerturbations,
      perturbDependencyDelay, applyHypotheticalMitigation, dictInsert, stDirty,
      optsScenA, scenA, msM]

/-- C3: on the cyclic dependency graph A ↔ B, forecastMilestone exhausts
every recursion budget — the source has no in-progress marker, raises no
InvalidGraph error, and would recurse in Python until the interpreter's
RecursionError; the claimed InvalidGraph detection does not exist in the
code. -/
theorem cyclic_graph_no_error_no_result :
    ∀ (now : Days) (fuel : Nat),
      forecastMilestone "M" stCyc noOptions now fuel = Except.error FErr.fuelOut := by
  intro now fuel
  have hB := (cyclicResolverDiverges now fuel).2
  simp only [ctxCyc, stCyc, wiCycA, wiCycB, msM] at hB
  simp [forecastMilestone, calculateDependencyDelays, topItemsLoop, topUpstreamLoop,
    getMilestone, getWorkItemsForMilestone, wiLookup, incomingFor,
    applyScenarioPerturbations, applyHypotheticalMitigation, stCyc, noOptions, msM,
    wiCycA, wiCycB, hB]

/-- C4 (amended): in the resolver _delay_for_work_item a completed work item
resolves to zero delay unless a dependency_delay override targets it, in
which case the resolved delay is at least the override.  This holds only
where the resolver is consulted (as an upstream of a non-completed milestone
item); the top-level loop skips completed milestone items regardless of
overrides (see the counterexample). -/
theorem resolver_completed_zero_unless_override (ctx : DepCtx) (now : Days) (fuel : Nat)
    (wiId : String) (memo : Memo) (wi : WorkItem)
    (hwi : wiLookup ctx.allItems wiId = some wi)
    (hst : wi.status = some "completed")
    (hmemo : memo.lookup wiId = none) :
    (ctx.scenarioDelays.lookup wiId = none →
        delayForWorkItem ctx now (fuel + 1) wiId memo = some (0, (wiId, 0) :: memo)) ∧
    (∀ d r memo1, ctx.scenarioDelays.lookup wiId = some d →
        delayForWorkItem ctx now (fuel + 1) wiId memo = some (r, memo1) → d ≤ r) := by
  constructor
  · intro hs
    show delayForWorkItemGo ctx now (delayForWorkItem ctx now fuel) wiId memo =
      some (0, (wiId, 0) :: memo)
    unfold delayForWorkItemGo
    simp [hmemo, hwi, hst, hs]
  · intro d r memo1 hs hrun
    have hrun' : delayForWorkItemGo ctx now (delayForWorkItem ctx now fuel) wiId memo =
        some (r, memo1) := hrun
    unfold delayForWorkItemGo at hrun'
    simp only [hmemo, hwi, hs, Option.isNone_some, Bool.false_eq_true, and_false,
      if_false] at hrun'
    rcases hl : delayLoopAux ctx now (delayForWorkItem ctx now fuel) wi
        (incomingFor ctx.allItems wiId) memo 0 with _ | ⟨mx, m1⟩
    · rw [hl] at hrun'
      simp at hrun'
    · rw [hl] at hrun'
      simp at hrun'
      have h0 : d ≤ max 0 d := le_max_right _ _
      have h1 : max 0 d ≤ ownDelayOf ctx wiId wi := ownDelayOf_ge_override ctx wiId wi d hs
      have h2 : ownDelayOf ctx wiId wi ≤ max (ownDelayOf ctx wiId wi) mx := le_max_left _ _
      linarith [hrun'.1.symm]

/-- C4 witness: the resolver theorem applied to the completed item W under a
7-day override — the resolver yields exactly 7. -/
theorem resolver_completed_witness :
    delayForWorkItem ctxW 0 1 "W" [] = some (7, [("W", 7)]) ∧ (7 : Days) ≤ 7 := by
  have hrun : delayForWorkItem ctxW 0 1 "W" [] = some (7, [("W", 7)]) := by
    simp [delayForWorkItem, delayForWorkItemGo, delayLoopAux, ownDelayOf, wiLookup,
      incomingFor, ctxW, wiW, List.lookup, max_def]
  exact ⟨hrun,
    (resolver_completed_zero_unless_override ctxW 0 0 "W" [] wiW rfl rfl rfl).2
      7 7 [("W", 7)] rfl hrun⟩

/-- C4 counterexample: a dependency_delay override of 7 days targeting the
completed milestone work item W (which has no dependents) leaves the forecast
numerically identical to the baseline (same dates, deltas and contribution
breakdown; only the explanation header names the scenario) — the override
does not apply at the forecast level, contradicting the claim for completed
work items of the milestone itself. -/
theorem completed_override_ignored_cex :
    (forecastMilestone "M" stW optsScenW 0 5).toOption.map
        (fun r => (r.p50Date, r.p80Date, r.deltaP50Days, r.deltaP80Days,
          r.contributionBreakdown)) =
      (forecastMilestone "M" stW noOptions 0 5).toOption.map
        (fun r => (r.p50Date, r.p80Date, r.deltaP50Days, r.deltaP80Days,
          r.contributionBreakdown)) ∧
    (forecastMilestone "M" stW optsScenW 0 5).toOption.map
      (fun r => r.deltaP50Days) = some 0 := by
  refine ⟨?_, ?_⟩ <;>
    simp [forecastMilestone, getMilestone, applyScenarioPerturbations,
      applyHypotheticalMitigation, perturbDependencyDelay, perturbScopeChange,
      perturbCapacityChange, calculateDependencyDelays, topItemsLoop, topUpstreamLoop,
      delayForWorkItem, delayForWorkItemGo, delayLoopAux, ownDelayOf,
      calculateRealisticDelay, wiLookup, incomingFor, depPropsFind,
      getWorkItemsForMilestone, getRisksForMilestone, calculateRiskDelays, riskStep,
      calculateScopeChangeDelays, calculateCapacityChangeDelay, calculateDataQuality,
      calculateUncertaintyBuffer, confidenceLevelOf, trackerAdd, trackerGetSorted,
      insertContrib, pyRound1, buildExplanation, critMultiplier, pyOrQ,
      effectiveImpactDays, riskDelayUncapped, riskDelayOne, dictInsert, List.lookup,
      List.find?, List.filter, List.foldl, List.map, List.reverse, List.length,
      List.contains, List.any, List.flatten, List.take, List.reverseAux, Option.getD,
      Option.isSome, Option.isNone, Option.map, Except.toOption,
      stW, msM, noOptions, optsScenW, scenW, wiW] <;>
    norm_num [min_def, max_def, Int.fract, pyRound1, insertContrib, List.foldl,
      List.map, List.take]

/-- C5 (amended): for a nonnegative effective impact and probability in
[0, 1], the per-risk delay satisfies materialised ≥ mitigating,
materialised ≥ open, open ≥ 0, mitigating ≥ 0 and accepted = closed = 0;
mitigating ≥ open however holds only when probability ≤ 5/12, because the
open multiplier is probability × 0.6 while mitigating is the flat 0.25 (see
the counterexample). -/
theorem risk_status_ordering_amended (r : Risk)
    (hD : 0 ≤ effectiveImpactDays r)
    (hp0 : 0 ≤ r.probability.getD (1 / 2))
    (hp1 : r.probability.getD (1 / 2) ≤ 1) :
    riskDelayOne { r with status := some "mitigating" } ≤
        riskDelayOne { r with status := some "materialised" } ∧
    riskDelayOne { r with status := some "open" } ≤
        riskDelayOne { r with status := some "materialised" } ∧
    0 ≤ riskDelayOne { r with status := some "open" } ∧
    0 ≤ riskDelayOne { r with status := some "mitigating" } ∧
    riskDelayOne { r with status := some "accepted" } = 0 ∧
    riskDelayOne { r with status := some "closed" } = 0 ∧
    (r.probability.getD (1 / 2) ≤ 5 / 12 →
      riskDelayOne { r with status := some "open" } ≤
        riskDelayOne { r with status := some "mitigating" }) := by
  have hEff : ∀ s : Option String,
      effectiveImpactDays { r with status := s } = effectiveImpactDays r := by
    intro s; rfl
  have hProb : ∀ s : Option String,
      ({ r with status := s } : Risk).probability = r.probability := by
    intro s; rfl
  have hmat : riskDelayOne { r with status := some "materialised" } =
      min (effectiveImpactDays r) 15 := by
    simp [riskDelayOne, riskDelayUncapped, hEff]
  have hopen : riskDelayOne { r with status := some "open" } =
      min (effectiveImpactDays r * (r.probability.getD (1 / 2)) * (3 / 5)) 15 := by
    simp [riskDelayOne, riskDelayUncapped, hEff, hProb]
  have hmit : riskDelayOne { r with status := some "mitigating" } =
      min (effectiveImpactDays r * (1 / 4)) 15 := by
    simp [riskDelayOne, riskDelayUncapped, hEff]
  have hacc : riskDelayOne { r with status := some "accepted" } = 0 := by
    simp [riskDelayOne, riskDelayUncapped]
  have hclo : riskDelayOne { r with status := some "closed" } = 0 := by
    simp [riskDelayOne, riskDelayUncapped]
  rw [hmat, hopen, hmit, hacc, hclo]
  refine ⟨min_le_min (by linarith) le_rfl, ?_, ?_, ?_, rfl, rfl, ?_⟩
  · refine min_le_min ?_ le_rfl
    nlinarith [mul_nonneg hD hp0, mul_nonneg hD (sub_nonneg.mpr hp1)]
  · exact le_min (mul_nonneg (mul_nonneg hD hp0) (by norm_num)) (by norm_num)
  · exact le_min (mul_nonneg hD (by norm_num)) (by norm_num)
  · intro hple
    refine min_le_min ?_ le_rfl
    nlinarith [mul_nonneg hD (sub_nonneg.mpr hple)]

/-- C5 witness: the amended ordering theorem applied to the concrete risk
rOpenEx (impact 10, probability 1). -/
theorem risk_status_ordering_witness :
    riskDelayOne { rOpenEx with status := some "mitigating" } ≤
      riskDelayOne { rOpenEx with status := some "materialised" } :=
  (risk_status_ordering_amended rOpenEx
    (by norm_num [effectiveImpactDays, pyOrQ, rOpenEx])
    (by norm_num [rOpenEx])
    (by norm_num [rOpenEx])).1

/-- C5 counterexample: for two risks identical except for status, with
impact-days 10 and probability 1 (within [0, 1]), the open delay 6.0 exceeds
the mitigating delay 2.5, refuting mitigating ≥ open in the claimed chain. -/
theorem risk_ordering_mitigating_open_cex :
    riskDelayOne rOpenEx = 6 ∧
    riskDelayOne { rOpenEx with status := some "mitigating" } = 5 / 2 ∧
    ¬ riskDelayOne rOpenEx ≤ riskDelayOne { rOpenEx with status := some "mitigating" } := by
  refine ⟨?_, ?_, ?_⟩ <;>
    simp [riskDelayOne, riskDelayUncapped, effectiveImpactDays, pyOrQ, rOpenEx,
      min_def] <;>
    norm_num

/-- C6: the uncertainty buffer computed from the engine's own data-quality
assessment always lies in [0, 12], and every successful forecast has
p80_date = p50_date + buffer with the buffer in that interval, hence
p80_date ≥ p50_date. -/
theorem buffer_bounds_and_p80_ge_p50 :
    (∀ mid st ext tr,
        0 ≤ (calculateUncertaintyBuffer mid st ext (calculateDataQuality mid st) tr).1 ∧
        (calculateUncertaintyBuffer mid st ext (calculateDataQuality mid st) tr).1 ≤ 12) ∧
    (∀ mid st opts now fuel res,
        forecastMilestone mid st opts now fuel = Except.ok res →
        res.p50Date ≤ res.p80Date ∧ res.p80Date ≤ res.p50Date + 12) :=
  ⟨fun mid st ext tr =>
      buffer_bounds mid st ext (calculateDataQuality mid st) tr
        (dataQuality_penalty_nonneg mid st),
   fun mid st opts now fuel res h => forecast_p80_ge_p50 mid st opts now fuel res h⟩

set_option maxRecDepth 8000 in
/-- C6 witness: the baseline forecast on stW succeeds with P50 = target and
P80 = target + 1.5, and the theorem yields p50 ≤ p80 there. -/
theorem buffer_bounds_and_p80_witness :
    forecastMilestone "M" stW noOptions 0 0 = Except.ok resW ∧
    resW.p50Date ≤ resW.p80Date := by
  have h : forecastMilestone "M" stW noOptions 0 0 = Except.ok resW := by
    simp [forecastMilestone, getMilestone, applyScenarioPerturbations,
      applyHypotheticalMitigation, calculateDependencyDelays, topItemsLoop,
      topUpstreamLoop, delayForWorkItem, delayForWorkItemGo, delayLoopAux, ownDelayOf,
      calculateRealisticDelay, wiLookup, incomingFor, depPropsFind,
      getWorkItemsForMilestone, getRisksForMilestone, calculateRiskDelays, riskStep,
      calculateScopeChangeDelays, calculateCapacityChangeDelay, calculateDataQuality,
      calculateUncertaintyBuffer, confidenceLevelOf, trackerAdd, trackerGetSorted,
      insertContrib, pyRound1, buildExplanation, critMultiplier, pyOrQ,
      effectiveImpactDays, riskDelayUncapped, riskDelayOne, dictInsert, List.lookup,
      List.find?, List.filter, List.foldl, List.map, List.reverse, List.length,
      List.contains, List.any, List.flatten, List.take, List.reverseAux, Option.getD,
      Option.isSome, Option.isNone, Option.map, Except.toOption,
      stW, msM, noOptions, wiW, resW]
    norm_num [min_def, max_def]
    have habs : |(3 / 2 : ℚ)| = 3 / 2 := abs_of_pos (by norm_num)
    norm_num [habs, insertContrib, List.foldl, List.map, List.take]
  exact ⟨h, (buffer_bounds_and_p80_ge_p50.2 "M" stW noOptions 0 0 resW h).1⟩

/-- C7: a capacity_change scenario with capacity_multiplier exactly 0 is
neither rejected nor clamped: the perturbation evaluates 1 / 0 and the
forecast raises the zero-division error for every wall-clock instant and
recursion budget. -/
theorem capacity_zero_multiplier_zero_division :
    ∀ (now : Days) (fuel : Nat),
      forecastMilestone "M" stW optsCap0 now fuel = Except.error FErr.zeroDiv := by
  intro now fuel
  rfl

/-- C8: forecastMilestone returns the NotFound error naming the requested
milestone id exactly when the id is absent from the snapshot's milestones;
when the milestone is present the call never produces that error. -/
theorem forecast_notfound_characterisation (mid : String) (st : PyState)
    (opts : ForecastOptions) (now : Days) (fuel : Nat) :
    isNotFoundError (forecastMilestone mid st opts now fuel) = (getMilestone mid st).isNone ∧
    (getMilestone mid st = none →
      forecastMilestone mid st opts now fuel = Except.error (FErr.notFound mid)) := by
  cases hm : getMilestone mid st with
  | none =>
    constructor
    · simp [forecastMilestone, hm, isNotFoundError]
    · intro _; simp [forecastMilestone, hm]
  | some ms =>
    constructor
    · show isNotFoundError (forecastMilestone mid st opts now fuel) = false
      unfold forecastMilestone
      simp only [hm]
      cases hs : (applyScenarioPerturbations st mid opts.scen []).1 with
      | error e =>
        have := applyScen_error_zeroDiv st mid opts.scen [] e hs
        subst this
        simp [isNotFoundError]
      | ok val =>
        obtain ⟨st1, tr1⟩ := val
        simp only []
        cases hd : calculateDependencyDelays ms
            ((applyHypotheticalMitigation st1 st1 opts.hypotheticalMitigation).1) tr1
            (opts.externalTeamHistory.getD []) now fuel with
        | none => simp [isNotFoundError]
        | some trip =>
          obtain ⟨dd, ec, tr2⟩ := trip
          simp only []
          cases hc : calculateCapacityChangeDelay mid
              ((applyHypotheticalMitigation st1 st1 opts.hypotheticalMitigation).1)
              (calculateScopeChangeDelays mid
                ((applyHypotheticalMitigation st1 st1 opts.hypotheticalMitigation).1)
                (calculateRiskDelays mid
                  ((applyHypotheticalMitigation st1 st1
                    opts.hypotheticalMitigation).1) tr2).2).2 with
          | error e =>
            have := capacity_error_zeroDiv _ _ _ e hc
            subst this
            simp [isNotFoundError]
          | ok cp => simp [isNotFoundError]
    · intro hcon
      exact Option.noConfusion hcon

/-- C8 witness: the characterisation applied to a snapshot with no
milestones: the NotFound error names the requested id verbatim. -/
theorem forecast_notfound_witness :
    forecastMilestone "X" stEmpty noOptions 0 0 = Except.error (FErr.notFound "X") :=
  (forecast_notfound_characterisation "X" stEmpty noOptions 0 0).2 rfl

/-- C10: a risk linked to the milestone whose impact dict carries none of the
keys impact_days / delay_days / schedule_delay_days is given the default base
impact of exactly 3.0 days, to which the status multiplier and the 15-day cap
then apply (3.0 for materialised, 0.75 for mitigating, 3 × probability × 0.6
capped at 15 for open). -/
theorem risk_missing_impact_defaults_three (r : Risk)
    (himp : ∀ i, r.impact = some i →
      i.impactDays = none ∧ i.delayDays = none ∧ i.scheduleDelayDays = none)
    (hm : r.hypotheticalMitigation = none) :
    effectiveImpactDays r = 3 ∧
    (r.status = some "materialised" → riskDelayOne r = 3) ∧
    (r.status = some "mitigating" → riskDelayOne r = 3 / 4) ∧
    (r.status = some "open" →
      riskDelayOne r = min (3 * (r.probability.getD (1 / 2)) * (3 / 5)) 15) := by
  have heff : effectiveImpactDays r = 3 := by
    unfold effectiveImpactDays
    rw [hm]
    cases hi : r.impact with
    | none => rfl
    | some i =>
      obtain ⟨h1, h2, h3⟩ := himp i hi
      simp [pyOrQ, h1, h2, h3]
  refine ⟨heff, ?_, ?_, ?_⟩
  · intro hst
    unfold riskDelayOne riskDelayUncapped
    rw [heff, hst]
    simp [min_def] <;> norm_num
  · intro hst
    unfold riskDelayOne riskDelayUncapped
    rw [heff, hst]
    simp [min_def] <;> norm_num
  · intro hst
    unfold riskDelayOne riskDelayUncapped
    rw [heff, hst]
    simp [min_def] <;> norm_num

/-- C10 witness: the default applied to the concrete risk rNoImpact
(materialised, empty impact dict) gives base impact 3 and delay 3. -/
theorem risk_missing_impact_defaults_witness :
    effectiveImpactDays rNoImpact = 3 ∧ riskDelayOne rNoImpact = 3 := by
  have himp : ∀ i, rNoImpact.impact = some i →
      i.impactDays = none ∧ i.delayDays = none ∧ i.scheduleDelayDays = none := by
    intro i hi
    have h : (some (⟨none, none, none⟩ : Impact) : Option Impact) = some i := hi
    cases h
    exact ⟨rfl, rfl, rfl⟩
  have h := risk_missing_impact_defaults_three rNoImpact himp rfl
  exact ⟨h.1, h.2.1 rfl⟩

end ForecastEngine

namespace RuleEngine

/-- C9: a dependency_blocked event naming a dependency present in the
snapshot makes the engine return exactly three commands, in order: one
CREATE_RISK or UPDATE_RISK whose payload status is materialised, one
SET_NEXT_DATE, and one ESCALATE_RISK — all from Rule 1, and no commands from
any other rule. -/
theorem processEvent_dependencyBlocked_three_commands (ev : Event) (st : Snapshot)
    (depId : String) (dep : DepEntry)
    (hev : ev.eventType = EvType.dependencyBlocked)
    (hdep : ev.dependencyId = some depId)
    (hne : depId ≠ "")
    (hlook : st.dependencies.lookup depId = some dep) :
    ∃ c1 c2 c3, processEvent ev st = [c1, c2, c3] ∧
      (c1.commandType = CommandType.createRisk ∨ c1.commandType = CommandType.updateRisk) ∧
      c1.payloadStatus = some "materialised" ∧
      c2.commandType = CommandType.setNextDate ∧
      c3.commandType = CommandType.escalateRisk ∧
      c1.ruleName = rule1Name ∧ c2.ruleName = rule1Name ∧ c3.ruleName = rule1Name := by
  have hm1 : rule1Matches ev = true := by simp [rule1Matches, hev]
  have hm2 : rule2Matches ev = false := by simp [rule2Matches, hev]
  have hm3 : rule3Matches ev = false := by simp [rule3Matches, hev]
  have hm4 : rule4Matches ev st = false := by simp [rule4Matches, hev]
  have hm5 : rule5Matches ev st = false := by simp [rule5Matches, hev]
  have hm6 : rule6Matches ev = false := by simp [rule6Matches, hev]
  have hm7 : rule7Matches ev = false := by simp [rule7Matches, hev]
  have hm8 : rule8Matches ev = false := by simp [rule8Matches, hev]
  have hm9 : rule9Matches ev = false := by simp [rule9Matches, hev]
  have hproc : processEvent ev st = rule1Execute ev st := by
    simp [processEvent, hm1, hm2, hm3, hm4, hm5, hm6, hm7, hm8, hm9]
  rw [hproc]
  unfold rule1Execute
  simp only [hdep]
  rw [if_neg hne]
  simp only [hlook]
  cases hr : st.risks.lookup ("risk_dep_blocked_" ++ depId) with
  | some existing =>
    simp only [hr]
    exact ⟨_, _, _, rfl, Or.inr rfl, rfl, rfl, rfl, rfl, rfl, rfl⟩
  | none =>
    simp only [hr]
    exact ⟨_, _, _, rfl, Or.inl rfl, rfl, rfl, rfl, rfl, rfl, rfl⟩

/-- C9 witness: the rule theorem applied to the concrete blocked-dependency
event evB against the snapshot stB. -/
theorem processEvent_dependencyBlocked_witness :
    ∃ c1 c2 c3, processEvent evB stB = [c1, c2, c3] ∧
      (c1.commandType = CommandType.createRisk ∨ c1.commandType = CommandType.updateRisk) ∧
      c1.payloadStatus = some "materialised" ∧
      c2.commandType = CommandType.setNextDate ∧
      c3.commandType = CommandType.escalateRisk ∧
      c1.ruleName = rule1Name ∧ c2.ruleName = rule1Name ∧ c3.ruleName = rule1Name :=
  processEvent_dependencyBlocked_three_commands evB stB "d1"
    { fromId := some "x", toId := some "y" } rfl rfl (by decide) rfl

end RuleEngine
